import Mathlib

set_option maxRecDepth 8000

namespace ISE547

/-! Shallow embedding of the evaluation-metrics engine of the repository
(`evaluation_metrics.py` together with the pure summary computation shared with
`update_metrics_summary.py`).  Code and questions are embedded as `List Char`;
Python floats are embedded as exact rationals; the external effects of the
engine (the `ast.parse` call, the CSV column/size lookups, and the wall clock)
are passed in explicitly as parameters.  The handful of regular expressions the
source uses are embedded by dedicated scanners whose semantics follow the
Python `re` engine on the concrete patterns involved (leftmost search, greedy
quantifiers, `.` not matching newline, non-overlapping `findall`). -/

/-- ASCII lower-casing of one character, mirroring Python `str.lower` on ASCII text. -/
def lowerChar (c : Char) : Char :=
  if 'A' ≤ c && c ≤ 'Z' then Char.ofNat (c.toNat + 32) else c

/-- Lower-case a character list. -/
def lowerL (l : List Char) : List Char :=
  l.map lowerChar

/-- Membership in the regex class `\w`, restricted to ASCII. -/
def isWordChar (c : Char) : Bool :=
  ('a' ≤ c && c ≤ 'z') || ('A' ≤ c && c ≤ 'Z') || ('0' ≤ c && c ≤ '9') || c = '_'

/-- Membership in the regex class `\s`, restricted to ASCII. -/
def isSpaceChar (c : Char) : Bool :=
  c = ' ' || c = '\t' || c = '\n' || c = '\r' || c = '\x0b' || c = '\x0c'

/-- Membership in the regex class `\d`. -/
def isDigitChar (c : Char) : Bool :=
  '0' ≤ c && c ≤ '9'

/-- Whether `pat` occurs as a contiguous substring of the text, which is how
`re.search` behaves on a pattern that is a plain literal (and how the Python
`in` operator behaves on strings). -/
def containsSub (pat : List Char) : List Char → Bool
  | [] => pat.isPrefixOf []
  | c :: rest => pat.isPrefixOf (c :: rest) || containsSub pat rest

/-- Tests a position predicate at successive suffixes of the text, in other
words `re.search` with an arbitrary position matcher. -/
def scanP (p : List Char → Bool) : List Char → Bool
  | [] => p []
  | c :: rest => p (c :: rest) || scanP p rest

/-- Tests a position predicate at successive suffixes without crossing a
newline: models the tail `.*B` of a regex, where the dot does not match a
newline character, so `B` can begin at any offset up to and including the first
newline position. -/
def scanLine (p : List Char → Bool) : List Char → Bool
  | [] => p []
  | c :: rest => p (c :: rest) || (if c = '\n' then false else scanLine p rest)

/-- Existence test for a regex of the shape `A.*B`: a literal `A` at some
position, then `B` starting on the same line after it. -/
def seqScan (a : List Char) (p : List Char → Bool) : List Char → Bool
  | [] => false
  | c :: rest =>
    (a.isPrefixOf (c :: rest) && scanLine p (List.drop a.length (c :: rest)))
      || seqScan a p rest

/-- Non-overlapping match count in the style of `re.findall`: at each position
try the matcher, and on success continue right after the consumed prefix.  The
fuel argument is initialized to more than the text length; every matcher used
with this scanner consumes at least one character on success. -/
def countScan (tryM : List Char → Option (List Char)) : Nat → List Char → Nat
  | 0, _ => 0
  | _ + 1, [] => 0
  | fuel + 1, c :: rest =>
    match tryM (c :: rest) with
    | some rem => 1 + countScan tryM fuel rem
    | none => countScan tryM fuel rest

/-- The character immediately before the remainder `rem` inside the text `l`,
used to re-establish word-boundary information after a match. -/
def lastConsumed (l rem : List Char) (prev : Option Char) : Option Char :=
  match (List.take (l.length - rem.length) l).getLast? with
  | some c => some c
  | none => prev

/-- Non-overlapping match count for matchers that need to inspect the previous
character (patterns beginning with a word boundary `\b`). -/
def countScanB (tryM : Option Char → List Char → Option (List Char)) :
    Nat → Option Char → List Char → Nat
  | 0, _, _ => 0
  | _ + 1, _, [] => 0
  | fuel + 1, prev, c :: rest =>
    match tryM prev (c :: rest) with
    | some rem => 1 + countScanB tryM fuel (lastConsumed (c :: rest) rem prev) rem
    | none => countScanB tryM fuel (some c) rest

/-- Non-overlapping capture collection in the style of `re.findall` with one
capture group: the matcher returns the capture together with the remainder. -/
def collectScan (tryM : List Char → Option (List Char × List Char)) :
    Nat → List Char → List (List Char)
  | 0, _ => []
  | _ + 1, [] => []
  | fuel + 1, c :: rest =>
    match tryM (c :: rest) with
    | some (cap, rem) => cap :: collectScan tryM fuel rem
    | none => collectScan tryM fuel rest

/-- First-match search in the style of `re.search`, returning the matcher's
output at the leftmost position where it succeeds. -/
def searchScan (tryM : List Char → Option (List Char)) : List Char → Option (List Char)
  | [] => tryM []
  | c :: rest =>
    match tryM (c :: rest) with
    | some x => some x
    | none => searchScan tryM rest

/-- A word boundary holds before the current position when the previous
character is absent or not a word character (all patterns below continue with a
word character). -/
def boundaryBefore : Option Char → Bool
  | none => true
  | some c => !isWordChar c

/-- A word boundary holds after a match when the next character is absent or
not a word character. -/
def boundaryAfter : List Char → Bool
  | [] => true
  | c :: _ => !isWordChar c

/-- Matcher for the pattern `\bkw\b` at the current position. -/
def tryWordKw (kw : List Char) (prev : Option Char) (l : List Char) : Option (List Char) :=
  if boundaryBefore prev && kw.isPrefixOf l && boundaryAfter (List.drop kw.length l) then
    some (List.drop kw.length l)
  else none

/-- Whether `re.search` finds the word-bounded keyword anywhere in the text. -/
def hasWordKw (kw : List Char) (text : List Char) : Bool :=
  0 < countScanB (tryWordKw kw) (text.length + 1) none text

/-- Matcher for a plain literal at the current position. -/
def tryLit (pat : List Char) (l : List Char) : Option (List Char) :=
  if pat.isPrefixOf l then some (List.drop pat.length l) else none

/-- Number of non-overlapping occurrences of a literal, as `re.findall` counts
them for a pattern with no metacharacters. -/
def countLit (pat : List Char) (l : List Char) : Nat :=
  countScan (tryLit pat) (l.length + 1) l

/-- Split a character list at newline characters, mirroring Python
`str.split('\n')` (the result always has one more piece than there are
newlines). -/
def splitLines : List Char → List (List Char)
  | [] => [[]]
  | c :: rest =>
    if c = '\n' then [] :: splitLines rest
    else
      match splitLines rest with
      | [] => [[c]]
      | line :: more => (c :: line) :: more

/-- Split a character list at commas, mirroring Python `str.split(',')`. -/
def splitComma : List Char → List (List Char)
  | [] => [[]]
  | c :: rest =>
    if c = ',' then [] :: splitComma rest
    else
      match splitComma rest with
      | [] => [[c]]
      | piece :: more => (c :: piece) :: more

/-- Python `str.strip()`: remove leading and trailing whitespace. -/
def stripWs (l : List Char) : List Char :=
  ((l.dropWhile isSpaceChar).reverse.dropWhile isSpaceChar).reverse

/-- A line is blank when stripping whitespace leaves nothing. -/
def isBlankLine (l : List Char) : Bool :=
  l.all isSpaceChar

/-! ### Static Code Inspector -/

/-- Outcome of the external `ast.parse` call on the generated code.  The
parser itself is part of the Python standard library, not of the repository, so
it enters the embedding as a parameter: Python raises either a `SyntaxError`
(carrying a line number, a message and the offending source excerpt) or some
other exception. -/
inductive ParseOutcome where
  | ok : ParseOutcome
  | syntaxError (lineno : Option Nat) (msg : String) (text : Option String) : ParseOutcome
  | otherError (msg : String) : ParseOutcome

/-- Whether the parse attempt failed. -/
def ParseOutcome.isFailure : ParseOutcome → Bool
  | .ok => false
  | .syntaxError _ _ _ => true
  | .otherError _ => true

/-- One entry in the syntax-error list of `check_syntax_correctness`; the line
number and source excerpt are only available for `SyntaxError`. -/
structure SyntaxErrorEntry where
  line : Option Nat
  message : String
  text : Option String

/-- Result record of `check_syntax_correctness`. -/
structure SyntaxResult where
  syntax_valid : Bool
  syntax_errors : List SyntaxErrorEntry

/-- Embeds `check_syntax_correctness`: the `ast.parse` call is externalized as
the `ParseOutcome` argument, and each exception branch produces the
corresponding record; the function never propagates an exception. -/
def check_syntax_correctness (p : ParseOutcome) : SyntaxResult :=
  match p with
  | .ok => { syntax_valid := true, syntax_errors := [] }
  | .syntaxError lineno msg text =>
      { syntax_valid := false
        syntax_errors := [{ line := lineno, message := msg, text := text }] }
  | .otherError msg =>
      { syntax_valid := false
        syntax_errors := [{ line := none, message := msg, text := none }] }

/-- The fixed control-keyword vocabulary of `check_code_quality`. -/
def complexityKeywords : List (List Char) :=
  [ "if".toList, "elif".toList, "else".toList, "for".toList,
    "while".toList, "try".toList, "except".toList, "with".toList ]

/-- Result record of `check_code_quality`. -/
structure QualityMetrics where
  has_imports : Bool
  has_comments : Bool
  line_count : Nat
  complexity_score : Nat
  readability_score : Int

/-- Test for the pattern `^import\s+` at a line start. -/
def importLineHere (l : List Char) : Bool :=
  ( "import".toList).isPrefixOf l &&
    (match List.drop 6 l with
     | c :: _ => isSpaceChar c
     | [] => false)

/-- Decides whether the text strictly between `from` and a candidate `import`
matches `\s+.*\s+`: both whitespace runs are nonempty, and because the dot does
not match a newline, every newline must fall inside the leading or trailing
whitespace run. -/
def fromGapOk (m : List Char) : Bool :=
  match m with
  | [] => false
  | c :: _ =>
    isSpaceChar c &&
      (if m.all isSpaceChar then 2 ≤ m.length
       else
         (match m.getLast? with
          | some d => isSpaceChar d
          | none => false)
         && !(((m.dropWhile isSpaceChar).reverse.dropWhile isSpaceChar).contains '\n'))

/-- Searches, after a leading `from`, for a split point where `import` begins
and the gap in between matches `\s+.*\s+`; the accumulator carries the reversed
gap seen so far. -/
def fromImportAfter (gapRev : List Char) : List Char → Bool
  | [] => false
  | c :: rest =>
    (( "import".toList).isPrefixOf (c :: rest) && fromGapOk gapRev.reverse)
      || fromImportAfter (c :: gapRev) rest

/-- Test for the pattern `^from\s+.*\s+import` starting at a line start. -/
def fromImportLineHere (l : List Char) : Bool :=
  ( "from".toList).isPrefixOf l && fromImportAfter [] (List.drop 4 l)

/-- The `has_imports` check of `check_code_quality`: the pattern
`^import\s+|^from\s+.*\s+import` with `re.MULTILINE`, so the anchors match at
the start of the text and right after every newline. -/
def hasImportsAux : Option Char → List Char → Bool
  | _, [] => false
  | prev, c :: rest =>
    ((prev = none || prev = some '\n')
        && (importLineHere (c :: rest) || fromImportLineHere (c :: rest)))
      || hasImportsAux (some c) rest

/-- Embeds `check_code_quality`. -/
def check_code_quality (code : List Char) : QualityMetrics :=
  let lines := splitLines code
  let line_count := lines.countP (fun l => !isBlankLine l)
  let has_imports := hasImportsAux none code
  let has_comments := code.contains '#'
  let complexity_count := complexityKeywords.countP (fun kw => hasWordKw kw code)
  let long_lines := lines.countP (fun l => 100 < l.length)
  let r1 : Int := 10 - (if (lines.length : ℚ) * 0.2 < (long_lines : ℚ) then 2 else 0)
  let r2 : Int := r1 - (if !has_comments && 10 < line_count then 1 else 0)
  let r3 : Int := r2 - (if 5 < complexity_count then 1 else 0)
  { has_imports := has_imports
    has_comments := has_comments
    line_count := line_count
    complexity_score := complexity_count
    readability_score := if r3 ≤ 0 then 0 else r3 }

/-- Spec-words reading of `complexityScore` for claim C3: the total number of
word-bounded occurrences of the control keywords, with every occurrence
counted separately.  This definition follows the specification sentence, to be
compared with the source-derived `check_code_quality`. -/
def specTotalKeywordOccurrences (code : List Char) : Nat :=
  (complexityKeywords.map
    (fun kw => countScanB (tryWordKw kw) (code.length + 1) none code)).sum

/-- One detected safety issue of `check_code_safety`; the `pattern` field
carries the regex text, as in the source. -/
structure SafetyIssue where
  category : String
  pattern : String
  severity : String

/-- Result record of `check_code_safety`. -/
structure SafetyResult where
  is_safe : Bool
  safety_issues : List SafetyIssue
  safety_score : ℚ

/-- Test for `open\(.*['"]X`, with `X` the given mode character: the literal
`open(`, then on the same line a quote character immediately followed by `X`. -/
def openModeHere (mode : Char) (lc : List Char) : Bool :=
  seqScan ( "open(".toList)
    (fun s =>
      match s with
      | q :: d :: _ => (q = '\'' || q = '"') && d = mode
      | _ => false) lc

/-- Test for `import\s+X`: the literal `import`, at least one whitespace
character (the run may cross newlines), then the literal `X`. -/
def importSpacesThen (w : List Char) (lc : List Char) : Bool :=
  scanP
    (fun s =>
      ( "import".toList).isPrefixOf s &&
        (match List.drop 6 s with
         | c :: _ => isSpaceChar c
         | [] => false)
        && w.isPrefixOf ((List.drop 6 s).dropWhile isSpaceChar)) lc

/-- The dangerous-pattern table of `check_code_safety`, evaluated on the
lower-cased code (all its searches carry `re.IGNORECASE`); each entry is the
issue produced when its test fires. -/
def safetyChecks (lc : List Char) : List (Bool × SafetyIssue) :=
  [ (containsSub ( ".to_csv(".toList) lc,
      { category := "file_write", pattern := "\\.to_csv\\(", severity := "medium" }),
    (containsSub ( ".to_excel(".toList) lc,
      { category := "file_write", pattern := "\\.to_excel\\(", severity := "medium" }),
    (openModeHere 'w' lc,
      { category := "file_write", pattern := "open\\(.*['\"]w", severity := "medium" }),
    (containsSub ( ".write(".toList) lc,
      { category := "file_write", pattern := "\\.write\\(", severity := "medium" }),
    (openModeHere 'r' lc,
      { category := "file_read", pattern := "open\\(.*['\"]r", severity := "medium" }),
    (containsSub ( "pd.read_".toList) lc,
      { category := "file_read", pattern := "pd\\.read_", severity := "medium" }),
    (containsSub ( "requests.".toList) lc,
      { category := "network", pattern := "requests\\.", severity := "high" }),
    (containsSub ( "urllib.".toList) lc,
      { category := "network", pattern := "urllib\\.", severity := "high" }),
    (containsSub ( "http.".toList) lc,
      { category := "network", pattern := "http\\.", severity := "high" }),
    (containsSub ( "os.system".toList) lc,
      { category := "system", pattern := "os\\.system", severity := "high" }),
    (containsSub ( "subprocess.".toList) lc,
      { category := "system", pattern := "subprocess\\.", severity := "high" }),
    (containsSub ( "exec(".toList) lc,
      { category := "system", pattern := "exec\\(", severity := "high" }),
    (containsSub ( "eval(".toList) lc,
      { category := "system", pattern := "eval\\(", severity := "high" }),
    (importSpacesThen ( "os".toList) lc,
      { category := "dangerous_imports", pattern := "import\\s+os", severity := "medium" }),
    (importSpacesThen ( "subprocess".toList) lc,
      { category := "dangerous_imports", pattern := "import\\s+subprocess", severity := "medium" }),
    (importSpacesThen ( "sys".toList) lc,
      { category := "dangerous_imports", pattern := "import\\s+sys", severity := "medium" }) ]

/-- Embeds `check_code_safety`. -/
def check_code_safety (code : List Char) : SafetyResult :=
  let issues := ((safetyChecks (lowerL code)).filter (fun e => e.1)).map (fun e => e.2)
  { is_safe := issues.length = 0
    safety_issues := issues
    safety_score :=
      if issues.length = 0 then 1
      else if 1 - (issues.length : ℚ) * 0.2 ≤ 0 then 0 else 1 - (issues.length : ℚ) * 0.2 }

/-! ### Complexity Estimator -/

/-- The complexity ladder of `analyze_time_complexity`; the list
`complexity_order` of the source corresponds to the rank function below. -/
inductive TC where
  | o1 | on | onlogn | on2 | on3
  deriving DecidableEq

/-- Position in the `complexity_order` list. -/
def TC.rank : TC → Nat
  | .o1 => 0
  | .on => 1
  | .onlogn => 2
  | .on2 => 3
  | .on3 => 4

/-- The complexity class as the source's textual big-O label. -/
def TC.label : TC → String
  | .o1 => "O(1)"
  | .on => "O(n)"
  | .onlogn => "O(n log n)"
  | .on2 => "O(n²)"
  | .on3 => "O(n³)"

/-- The `complexity_scores` lookup table of `analyze_time_complexity`
(its entries for `O(log n)` and the default are unreachable here because every
notation this analysis can produce is one of the five classes). -/
def TC.timeScore : TC → ℚ
  | .o1 => 1
  | .on => 0.7
  | .onlogn => 0.5
  | .on2 => 0.3
  | .on3 => 0.1

/-- Matcher for `\bfor\s+\w+\s+in\s+` at the current position.  The character
classes at every junction of the pattern are disjoint, so the greedy runs are
exactly the maximal runs and the match is deterministic. -/
def tryForIn (prev : Option Char) (l : List Char) : Option (List Char) :=
  if boundaryBefore prev && ( "for".toList).isPrefixOf l then
    match List.drop 3 l with
    | c1 :: r1 =>
      if isSpaceChar c1 then
        match r1.dropWhile isSpaceChar with
        | c2 :: r2 =>
          if isWordChar c2 then
            match r2.dropWhile isWordChar with
            | c3 :: r3 =>
              if isSpaceChar c3 then
                let l4 := r3.dropWhile isSpaceChar
                if ( "in".toList).isPrefixOf l4 then
                  match List.drop 2 l4 with
                  | c5 :: r5 => if isSpaceChar c5 then some (r5.dropWhile isSpaceChar) else none
                  | [] => none
                else none
              else none
            | [] => none
          else none
        | [] => none
      else none
    | [] => none
  else none

/-- Matcher for `\bwhile\s+` at the current position. -/
def tryWhile (prev : Option Char) (l : List Char) : Option (List Char) :=
  if boundaryBefore prev && ( "while".toList).isPrefixOf l then
    match List.drop 5 l with
    | c :: r => if isSpaceChar c then some (r.dropWhile isSpaceChar) else none
    | [] => none
  else none

/-- The `nested_loops` count of `analyze_time_complexity`: the number of
matches of the five loop patterns, each with weight one, under
`re.IGNORECASE`. -/
def nestedLoopsOf (code : List Char) : Nat :=
  let lc := lowerL code
  countScanB tryForIn (lc.length + 1) none lc
    + countScanB tryWhile (lc.length + 1) none lc
    + countLit ( ".apply(".toList) lc
    + countLit ( ".iterrows(".toList) lc
    + countLit ( ".itertuples(".toList) lc

/-- Test for `\.concat\(.*axis=1`: the literal `.concat(` followed by `axis=1`
on the same line. -/
def concatAxis1 (lc : List Char) : Bool :=
  seqScan ( ".concat(".toList) (fun s => ( "axis=1".toList).isPrefixOf s) lc

/-- The `pandas_ops` table of `analyze_time_complexity`, one entry per
pattern, evaluated on the lower-cased code. -/
def pandasOpsTable (lc : List Char) : List (TC × Bool) :=
  [ (TC.o1, containsSub ( ".head(".toList) lc),
    (TC.o1, containsSub ( ".tail(".toList) lc),
    (TC.o1, containsSub ( ".iloc[".toList) lc),
    (TC.o1, containsSub ( ".loc[".toList) lc),
    (TC.o1, containsSub ( ".shape".toList) lc),
    (TC.o1, containsSub ( ".dtypes".toList) lc),
    (TC.on, containsSub ( ".mean(".toList) lc),
    (TC.on, containsSub ( ".sum(".toList) lc),
    (TC.on, containsSub ( ".count(".toList) lc),
    (TC.on, containsSub ( ".unique(".toList) lc),
    (TC.on, containsSub ( ".value_counts(".toList) lc),
    (TC.on, containsSub ( ".groupby(".toList) lc),
    (TC.on, containsSub ( ".sort_values(".toList) lc),
    (TC.on, containsSub ( ".dropna(".toList) lc),
    (TC.on, containsSub ( ".fillna(".toList) lc),
    (TC.onlogn, containsSub ( ".sort_values(".toList) lc),
    (TC.onlogn, containsSub ( ".sort_index(".toList) lc),
    (TC.on2, containsSub ( ".merge(".toList) lc),
    (TC.on2, containsSub ( ".join(".toList) lc),
    (TC.on2, concatAxis1 lc) ]

/-- Fold step implementing the running maximum over the ladder, exactly as the
source updates `max_complexity` when a pattern matches with a strictly higher
`complexity_order` index. -/
def tcStep (acc : TC) (e : TC × Bool) : TC :=
  if e.2 && acc.rank < e.1.rank then e.1 else acc

/-- The base complexity of `analyze_time_complexity`: the highest-ranked
matching data-operation pattern, defaulting to `O(1)`. -/
def baseComplexity (code : List Char) : TC :=
  (pandasOpsTable (lowerL code)).foldl tcStep TC.o1

/-- The loop adjustment of `analyze_time_complexity`: one loop bumps
`O(1)→O(n)` and `O(n)→O(n²)`; two or more loops bump `O(1)` or `O(n)` to
`O(n²)` and anything else to `O(n³)`. -/
def adjustLoops (m : TC) (n : Nat) : TC :=
  if 0 < n then
    if n = 1 then
      if m = TC.o1 then TC.on
      else if m = TC.on then TC.on2
      else m
    else
      if m = TC.o1 then TC.on2
      else if m = TC.on then TC.on2
      else TC.on3
  else m

/-- Result record of `analyze_time_complexity`; the `bigO` field embeds the
result's `notation` key. -/
structure TimeComplexityResult where
  bigO : String
  score : ℚ
  nested_loops : Nat
  estimated_operations : Nat

/-- Embeds `analyze_time_complexity`. -/
def analyze_time_complexity (code : List Char) : TimeComplexityResult :=
  let n := nestedLoopsOf code
  let m := adjustLoops (baseComplexity code) n
  { bigO := m.label
    score := m.timeScore
    nested_loops := n
    estimated_operations := n + 1 }

/-- Test for a pattern of the shape `X\s*=`: the literal `X`, optional
whitespace (which may cross newlines), then an equals sign. -/
def litWsEq (w : List Char) (lc : List Char) : Bool :=
  scanP
    (fun s =>
      w.isPrefixOf s &&
        (match (List.drop w.length s).dropWhile isSpaceChar with
         | c :: _ => c = '='
         | [] => false)) lc

/-- The `space_indicators` table of `analyze_space_complexity`, one entry per
pattern, evaluated on the lower-cased code (the space ladder only uses the
three classes `O(1) < O(n) < O(n²)`). -/
def spaceIndicatorsTable (lc : List Char) : List (TC × Bool) :=
  [ (TC.o1, containsSub ( ".head(".toList) lc),
    (TC.o1, containsSub ( ".tail(".toList) lc),
    (TC.o1, containsSub ( ".iloc[".toList) lc),
    (TC.o1, containsSub ( ".loc[".toList) lc),
    (TC.o1, containsSub ( ".shape".toList) lc),
    (TC.o1, containsSub ( ".dtypes".toList) lc),
    (TC.on, containsSub ( ".copy(".toList) lc),
    (TC.on, containsSub ( ".drop(".toList) lc),
    (TC.on, containsSub ( ".dropna(".toList) lc),
    (TC.on, containsSub ( ".fillna(".toList) lc),
    (TC.on, containsSub ( ".assign(".toList) lc),
    (TC.on, litWsEq ( "result".toList) lc),
    (TC.on, litWsEq ( "df_new".toList) lc),
    (TC.on, litWsEq ( "df_filtered".toList) lc),
    (TC.on2, containsSub ( ".merge(".toList) lc),
    (TC.on2, containsSub ( ".join(".toList) lc),
    (TC.on2, containsSub ( ".concat(".toList) lc),
    (TC.on2, containsSub ( ".pivot(".toList) lc),
    (TC.on2, containsSub ( ".pivot_table(".toList) lc) ]

/-- The `space_scores` lookup of `analyze_space_complexity` (the default value
is unreachable: the space ladder only produces its three keyed classes). -/
def TC.spaceScore : TC → ℚ
  | .o1 => 1
  | .on => 0.6
  | _ => 0.2

/-- The memory multiplier table of `analyze_space_complexity`. -/
def TC.memMultiplier : TC → ℚ
  | .o1 => 1
  | .on => 2
  | _ => 4

/-- Result record of `analyze_space_complexity`; the `bigO` field embeds the
result's `notation` key. -/
structure SpaceComplexityResult where
  bigO : String
  score : ℚ
  estimated_memory_mb : ℚ

/-- Embeds `analyze_space_complexity`.  The best-effort file-size lookup is
externalized: `sizeMB` is the file size in megabytes when the CSV file is
available and readable, and `none` otherwise (in which case the estimate stays
at its initial zero). -/
def analyze_space_complexity (code : List Char) (sizeMB : Option ℚ) : SpaceComplexityResult :=
  let m := (spaceIndicatorsTable (lowerL code)).foldl tcStep TC.o1
  { bigO := m.label
    score := m.spaceScore
    estimated_memory_mb :=
      match sizeMB with
      | some s => s * m.memMultiplier
      | none => 0 }

/-! ### Intent Analyzer -/

/-- The stoplist of data-frame method names excluded from column extraction in
`analyze_prompt_understanding`. -/
def pandasMethods : List (List Char) :=
  [ "head".toList, "tail".toList, "mean".toList, "sum".toList, "max".toList,
    "min".toList, "count".toList, "size".toList, "shape".toList, "dtypes".toList,
    "columns".toList, "index".toList, "values".toList, "copy".toList, "drop".toList,
    "fillna".toList, "dropna".toList, "groupby".toList, "sort_values".toList,
    "sort_index".toList, "nlargest".toList, "nsmallest".toList, "query".toList,
    "loc".toList, "iloc".toList, "apply".toList, "agg".toList, "merge".toList,
    "join".toList, "concat".toList, "pivot".toList, "pivot_table".toList,
    "describe".toList, "info".toList, "isnull".toList, "notnull".toList,
    "unique".toList, "value_counts".toList, "sample".toList ]

/-- Whether the character is one of the two quote characters of the class
`['"]`. -/
def isQuoteChar (c : Char) : Bool :=
  c = '\'' || c = '"'

/-- Matcher for `df\[['"]([^'"]+)['"]\]` at the current position: a bracketed
single-column access; the capture is the column name between the quotes. -/
def tryCol1 (l : List Char) : Option (List Char × List Char) :=
  if ( "df[".toList).isPrefixOf l then
    match List.drop 3 l with
    | q :: r =>
      if isQuoteChar q then
        let content := r.takeWhile (fun c => !isQuoteChar c)
        let rest := r.dropWhile (fun c => !isQuoteChar c)
        if content.isEmpty then none
        else
          match rest with
          | q2 :: rb :: r2 =>
            if isQuoteChar q2 && rb = ']' then some (content, r2) else none
          | _ => none
      else none
    | [] => none
  else none

/-- Matcher for `df\[\[['"]([^'"]+)['"]` at the current position: the opening
of a column-list access; the capture is the first quoted column name. -/
def tryCol2 (l : List Char) : Option (List Char × List Char) :=
  if ( "df[[".toList).isPrefixOf l then
    match List.drop 4 l with
    | q :: r =>
      if isQuoteChar q then
        let content := r.takeWhile (fun c => !isQuoteChar c)
        let rest := r.dropWhile (fun c => !isQuoteChar c)
        if content.isEmpty then none
        else
          match rest with
          | _ :: r2 => some (content, r2)
          | [] => none
      else none
    | [] => none
  else none

/-- Matcher for `df\[\[([^\]]+)\]\]` at the current position: the capture is
everything inside the double brackets, which cannot contain a closing
bracket. -/
def tryColList (l : List Char) : Option (List Char × List Char) :=
  if ( "df[[".toList).isPrefixOf l then
    let r := List.drop 4 l
    let content := r.takeWhile (fun c => c ≠ ']')
    let rest := r.dropWhile (fun c => c ≠ ']')
    if content.isEmpty then none
    else
      match rest with
      | _ :: ']' :: r2 => some (content, r2)
      | _ => none
  else none

/-- Matcher for `['"]([^'"]+)['"]` at the current position: one quoted name,
used to pull the individual column names out of a bracketed list. -/
def tryQuotePair (l : List Char) : Option (List Char × List Char) :=
  match l with
  | q :: r =>
    if isQuoteChar q then
      let content := r.takeWhile (fun c => !isQuoteChar c)
      let rest := r.dropWhile (fun c => !isQuoteChar c)
      if content.isEmpty then none
      else
        match rest with
        | _ :: r2 => some (content, r2)
        | [] => none
    else none
  | [] => none

/-- The column names extracted from the generated code in
`analyze_prompt_understanding`: the captures of the three bracket-indexing
patterns (run with `re.IGNORECASE`, so the scan happens on the lower-cased
code and the captures come out lower-cased, which is how they are consumed),
with the method stoplist filtered out.  The Python `set` is represented as a
list; only membership in it is ever used. -/
def extractedColumnsOf (code : List Char) : List (List Char) :=
  let lc := lowerL code
  let a := collectScan tryCol1 (lc.length + 1) lc
  let b := collectScan tryCol2 (lc.length + 1) lc
  let c :=
    (collectScan tryColList (lc.length + 1) lc).flatMap
      (fun content => collectScan tryQuotePair (content.length + 1) content)
  (a ++ b ++ c).filter (fun col => !pandasMethods.contains col)

/-- Python `str.replace('_', ' ')`. -/
def underscoreToSpace (l : List Char) : List Char :=
  l.map (fun c => if c = '_' then ' ' else c)

/-- Head-of-list character test. -/
def headIs (c : Char) : List Char → Bool
  | [] => false
  | d :: _ => d = c

/-- Head-of-list digit test, the beginning of a `\d+` group. -/
def headDigit : List Char → Bool
  | [] => false
  | c :: _ => isDigitChar c

/-- Test for `\s+` followed by a continuation: at least one whitespace
character, then the continuation at the end of the maximal whitespace run (all
junctions in the patterns below are between disjoint character classes, so the
greedy run is the maximal run). -/
def wsPlusThen (p : List Char → Bool) : List Char → Bool
  | [] => false
  | c :: r => isSpaceChar c && p (r.dropWhile isSpaceChar)

/-- Test for a pattern of the shape `w\s+\d`, anywhere in the text. -/
def litWsNum (w : List Char) (text : List Char) : Bool :=
  scanP (fun s => w.isPrefixOf s && wsPlusThen headDigit (List.drop w.length s)) text

/-- Test for `\d+\s+w` at the current position. -/
def numThenWsLit (w : List Char) (l : List Char) : Bool :=
  match l with
  | c :: _ => isDigitChar c && wsPlusThen (fun s => w.isPrefixOf s) (l.dropWhile isDigitChar)
  | [] => false

/-- Test for `ascending\s*=\s*w` at the current position. -/
def ascVal (w : List Char) (s : List Char) : Bool :=
  ( "ascending".toList).isPrefixOf s &&
    (match (List.drop 9 s).dropWhile isSpaceChar with
     | '=' :: r => w.isPrefixOf (r.dropWhile isSpaceChar)
     | _ => false)

/-- Test for `\.sort_values\(.*ascending\s*=\s*w`. -/
def sortValuesAsc (w : List Char) (lc : List Char) : Bool :=
  seqScan ( ".sort_values(".toList) (ascVal w) lc

/-- Test for `:\s*\d+` at the current position. -/
def colonNum (s : List Char) : Bool :=
  match s with
  | ':' :: r =>
    (match r.dropWhile isSpaceChar with
     | c :: _ => isDigitChar c
     | [] => false)
  | _ => false

/-- Test for `\.agg\(.*w`. -/
def aggThen (w : List Char) (lc : List Char) : Bool :=
  seqScan ( ".agg(".toList) (fun s => w.isPrefixOf s) lc

/-- The question side of the `top_n` category of `nl_patterns`. -/
def nlTopNQ (ql : List Char) : Bool :=
  litWsNum ( "top".toList) ql || litWsNum ( "largest".toList) ql
    || litWsNum ( "biggest".toList) ql || litWsNum ( "highest".toList) ql

/-- The code side of the `top_n` category. -/
def nlTopNC (lc : List Char) : Bool :=
  containsSub ( ".nlargest(".toList) lc || containsSub ( ".head(".toList) lc
    || sortValuesAsc ( "false".toList) lc

/-- The question side of the `first_n_rows` category. -/
def nlFirstNQ (ql : List Char) : Bool :=
  scanP (fun s => ( "first".toList).isPrefixOf s
      && wsPlusThen (numThenWsLit ( "row".toList)) (List.drop 5 s)) ql
    || litWsNum ( "first".toList) ql
    || seqScan ( "extract".toList)
        (fun s => ( "first".toList).isPrefixOf s && wsPlusThen headDigit (List.drop 5 s)) ql

/-- The code side of the `first_n_rows` category. -/
def nlFirstNC (lc : List Char) : Bool :=
  containsSub ( ".head(".toList) lc || seqScan ( ".iloc[".toList) colonNum lc
    || seqScan ( ".loc[".toList) colonNum lc

/-- The question side of the `bottom_n` category. -/
def nlBottomNQ (ql : List Char) : Bool :=
  litWsNum ( "bottom".toList) ql || litWsNum ( "smallest".toList) ql
    || litWsNum ( "lowest".toList) ql

/-- The code side of the `bottom_n` category. -/
def nlBottomNC (lc : List Char) : Bool :=
  containsSub ( ".nsmallest(".toList) lc || containsSub ( ".tail(".toList) lc
    || sortValuesAsc ( "true".toList) lc

/-- The question side of the `filtering` category. -/
def nlFilterQ (ql : List Char) : Bool :=
  containsSub ( "where".toList) ql || containsSub ( "filter".toList) ql
    || containsSub ( "only".toList) ql || containsSub ( "greater than".toList) ql
    || containsSub ( "less than".toList) ql || containsSub ( "equal to".toList) ql

/-- The code side of the `filtering` category. -/
def nlFilterC (lc : List Char) : Bool :=
  seqScan ( "df[".toList) (headIs ']') lc || containsSub ( ".query(".toList) lc
    || containsSub ( ".loc[".toList) lc || containsSub ( ".iloc[".toList) lc

/-- The question side of the `visualization` category. -/
def nlVizQ (ql : List Char) : Bool :=
  containsSub ( "chart".toList) ql || containsSub ( "graph".toList) ql
    || containsSub ( "plot".toList) ql || containsSub ( "visualize".toList) ql
    || containsSub ( "bar chart".toList) ql || containsSub ( "histogram".toList) ql
    || containsSub ( "pie chart".toList) ql

/-- The code side of the `visualization` category. -/
def nlVizC (lc : List Char) : Bool :=
  containsSub ( "plt.".toList) lc || containsSub ( "matplotlib".toList) lc
    || containsSub ( "seaborn".toList) lc || containsSub ( "sns.".toList) lc
    || containsSub ( ".plot(".toList) lc || litWsEq ( "fig".toList) lc
    || containsSub ( "ax.".toList) lc

/-- One `stat_patterns` category: question triggers and code triggers, both as
predicate results, plus the category name recorded in `detected_stats`. -/
structure StatCat where
  name : String
  qMatch : Bool
  cMatch : Bool

/-- The `stat_patterns` table evaluated on the lower-cased question and code,
in the source's insertion order. -/
def statCats (ql lc : List Char) : List StatCat :=
  [ { name := "mean"
      qMatch := containsSub ( "average".toList) ql || containsSub ( "mean".toList) ql
        || containsSub ( "avg".toList) ql
      cMatch := containsSub ( ".mean(".toList) lc || containsSub ( ".average(".toList) lc },
    { name := "sum"
      qMatch := containsSub ( "sum".toList) ql || containsSub ( "total".toList) ql
        || containsSub ( "add".toList) ql
      cMatch := containsSub ( ".sum(".toList) lc || aggThen ( "sum".toList) lc },
    { name := "max"
      qMatch := containsSub ( "maximum".toList) ql || containsSub ( "max".toList) ql
        || containsSub ( "highest".toList) ql || containsSub ( "largest".toList) ql
      cMatch := containsSub ( ".max(".toList) lc || aggThen ( "max".toList) lc
        || containsSub ( ".nlargest(".toList) lc },
    { name := "min"
      qMatch := containsSub ( "minimum".toList) ql || containsSub ( "min".toList) ql
        || containsSub ( "lowest".toList) ql || containsSub ( "smallest".toList) ql
      cMatch := containsSub ( ".min(".toList) lc || aggThen ( "min".toList) lc
        || containsSub ( ".nsmallest(".toList) lc },
    { name := "count"
      qMatch := containsSub ( "count".toList) ql || containsSub ( "number of".toList) ql
        || containsSub ( "how many".toList) ql
      cMatch := containsSub ( ".count(".toList) lc || containsSub ( ".size(".toList) lc
        || containsSub ( "len(".toList) lc || containsSub ( ".shape[0]".toList) lc },
    { name := "groupby"
      qMatch := containsSub ( "group by".toList) ql || containsSub ( "by".toList) ql
        || containsSub ( "per".toList) ql || containsSub ( "for each".toList) ql
      cMatch := containsSub ( ".groupby(".toList) lc
        || containsSub ( ".pivot_table(".toList) lc } ]

/-- The `details` sub-record of `analyze_prompt_understanding`. -/
structure UnderstandingDetails where
  column_extraction_score : ℚ
  nl_parsing_score : ℚ
  statistical_understanding_score : ℚ
  extracted_columns : List (List Char)
  mentioned_columns : List (List Char)
  statistical_operations : List String

/-- Result record of `analyze_prompt_understanding`. -/
structure UnderstandingResult where
  understanding_score : ℚ
  details : UnderstandingDetails

/-- The five `nl_patterns` categories evaluated on the lower-cased question
and code, each as the pair of its question-side and code-side results (all
categories carry the same weight `0.06`). -/
def nlCats (ql lc : List Char) : List (Bool × Bool) :=
  [ (nlTopNQ ql, nlTopNC lc),
    (nlFirstNQ ql, nlFirstNC lc),
    (nlBottomNQ ql, nlBottomNC lc),
    (nlFilterQ ql, nlFilterC lc),
    (nlVizQ ql, nlVizC lc) ]

/-- Embeds `analyze_prompt_understanding`.  The CSV column lookup is
externalized: `csvColumns` is the header list the collaborator provides (empty
when no file is available or the read fails); the source lower-cases it on
load. -/
def analyze_prompt_understanding (question code : List Char)
    (csvColumns : List (List Char)) : UnderstandingResult :=
  let ql := lowerL question
  let lc := lowerL code
  let available := csvColumns.map lowerL
  let mentioned := available.filter
    (fun col => containsSub col ql || containsSub (underscoreToSpace col) ql)
  let extracted := extractedColumnsOf code
  let colScore : ℚ :=
    if !mentioned.isEmpty then
      if !extracted.isEmpty then
        ((mentioned.countP (fun col => extracted.contains col) : ℚ) / mentioned.length) * 0.4
      else 0
    else if !extracted.isEmpty then 0.2
    else 0.1
  let nlScore : ℚ :=
    ((nlCats ql lc).map
      (fun e => if e.1 && e.2 then (0.06 : ℚ) else if e.1 then 0.06 * 0.3 else 0)).sum
  let cats := statCats ql lc
  let statScore : ℚ :=
    (cats.map
      (fun e => if e.qMatch && e.cMatch then (0.1 : ℚ) else if e.qMatch then 0.1 * 0.2 else 0)).sum
  let detected := (cats.filter (fun e => e.qMatch)).map (fun e => e.name)
  let score := colScore + nlScore + statScore
  let maxScore : ℚ := 0.4 + 0.3 + 0.3
  { understanding_score := if 0 < maxScore then score / maxScore else 0
    details :=
      { column_extraction_score := colScore
        nl_parsing_score := nlScore
        statistical_understanding_score := statScore
        extracted_columns := extracted
        mentioned_columns := mentioned
        statistical_operations := detected } }

/-! ### Requirement Coverage Analyzer -/

/-- The `filter_keywords` list of `analyze_requirement_coverage`. -/
def filterKeywordsL : List (List Char) :=
  [ "and".toList, "or".toList, "where".toList, "filter".toList,
    "greater than".toList, "less than".toList, "equal to".toList,
    "not equal".toList, "contains".toList, "in".toList, "between".toList ]

/-- The `sort_keywords` list of `analyze_requirement_coverage`. -/
def sortKeywordsL : List (List Char) :=
  [ "sort".toList, "order".toList, "ascending".toList, "descending".toList,
    "top".toList, "bottom".toList, "largest".toList, "smallest".toList ]

/-- The `join_keywords` list of `analyze_requirement_coverage`. -/
def joinKeywordsL : List (List Char) :=
  [ "join".toList, "merge".toList, "combine".toList, "match".toList ]

/-- The number of filter keywords that occur in the lower-cased question (the
source counts each keyword at most once, via the Python `in` operator). -/
def filterMentionCount (ql : List Char) : Nat :=
  filterKeywordsL.countP (fun kw => containsSub kw ql)

/-- The remainder just past the last `]` on the current line, if any: the tail
of a greedy `.*\]` whose dot does not cross newlines. -/
def lastCloseAfter (r : List Char) : Option (List Char) :=
  match (r.takeWhile (fun c => c ≠ '\n')).reverse.findIdx? (fun c => c = ']') with
  | some k => some (List.drop ((r.takeWhile (fun c => c ≠ '\n')).length - k) r)
  | none => none

/-- Matcher for one alternative of `df\[.*\]|\.query\(|\.loc\[.*\]|\.iloc\[.*\]`
at the current position (the four alternatives have pairwise incompatible
prefixes, so they can be tried in order without backtracking between them). -/
def tryFilterOp (l : List Char) : Option (List Char) :=
  if ( "df[".toList).isPrefixOf l then lastCloseAfter (List.drop 3 l)
  else if ( ".query(".toList).isPrefixOf l then some (List.drop 7 l)
  else if ( ".loc[".toList).isPrefixOf l then lastCloseAfter (List.drop 5 l)
  else if ( ".iloc[".toList).isPrefixOf l then lastCloseAfter (List.drop 6 l)
  else none

/-- The `filter_ops` count of `analyze_requirement_coverage`, a case-sensitive
`findall` over the raw generated code. -/
def filterOpsCount (code : List Char) : Nat :=
  countScan tryFilterOp (code.length + 1) code

/-- One repetition of `,\s*[^,]+`: a comma followed by a nonempty stretch of
non-comma characters, all of which the greedy group consumes. -/
def segStep (l : List Char) : Option (List Char) :=
  match l with
  | ',' :: r =>
    let seg := r.takeWhile (fun c => c ≠ ',')
    if seg.isEmpty then none else some (r.dropWhile (fun c => c ≠ ','))
  | _ => none

/-- Zero or more further repetitions of `,\s*[^,]+`. -/
def segMany : Nat → List Char → List Char
  | 0, l => l
  | fuel + 1, l =>
    match segStep l with
    | some r => segMany fuel r
    | none => l

/-- Matcher for the capture `([^,]+(?:,\s*[^,]+)+)` at the current position: a
first nonempty comma-free segment followed by at least one `,segment`
repetition; returns the capture and the remainder. -/
def parseGroupList (l : List Char) : Option (List Char × List Char) :=
  let seg := l.takeWhile (fun c => c ≠ ',')
  if seg.isEmpty then none
  else
    let r1 := l.dropWhile (fun c => c ≠ ',')
    match segStep r1 with
    | none => none
    | some r2 =>
      let rfin := segMany r1.length r2
      some (l.take (l.length - rfin.length), rfin)

/-- Matcher for `\s+([^,]+(?:,\s*[^,]+)+)` at the current position.  Normally
the capture starts at the first non-whitespace character; when that character
is a comma the Python engine backtracks and the final whitespace character is
yielded to the capture group instead (which needs at least two whitespace
characters in the run). -/
def tryWsGroupList (l : List Char) : Option (List Char × List Char) :=
  let w := l.takeWhile isSpaceChar
  let l2 := l.dropWhile isSpaceChar
  if w.isEmpty then none
  else
    match parseGroupList l2 with
    | some (cap, rem) => some (cap, rem)
    | none =>
      if 2 ≤ w.length then
        match segStep l2 with
        | some r2 =>
          let rfin := segMany l2.length r2
          some (w.getLast?.toList ++ l2.take (l2.length - rfin.length), rfin)
        | none => none
      else none

/-- Matcher for `group\s+by\s+([^,]+(?:,\s*[^,]+)+)` at the current
position. -/
def tryGroupQ1 (l : List Char) : Option (List Char × List Char) :=
  if ( "group".toList).isPrefixOf l then
    match List.drop 5 l with
    | c :: r =>
      if isSpaceChar c then
        if ( "by".toList).isPrefixOf (r.dropWhile isSpaceChar) then
          tryWsGroupList (List.drop 2 (r.dropWhile isSpaceChar))
        else none
      else none
    | [] => none
  else none

/-- Matcher for `by\s+([^,]+(?:,\s*[^,]+)+)` at the current position. -/
def tryGroupQ2 (l : List Char) : Option (List Char × List Char) :=
  if ( "by".toList).isPrefixOf l then tryWsGroupList (List.drop 2 l)
  else none

/-- The `groupby_columns_mentioned` list of `analyze_requirement_coverage`:
both question patterns are run over the lower-cased question and every capture
is split at commas and stripped. -/
def groupbyColumnsMentioned (ql : List Char) : List (List Char) :=
  ((collectScan tryGroupQ1 (ql.length + 1) ql ++ collectScan tryGroupQ2 (ql.length + 1) ql).map
    (fun cap => (splitComma cap).map stripWs)).flatten

/-- Largest split of the run at a `)` that leaves a nonempty capture: the
backtracking of the greedy `([^\]]+)` inside `\.groupby\(\[?([^\]]+)\]?\)` when
the run is not followed by `])`. -/
def lastParenSplit (run : List Char) : Option (List Char × List Char) :=
  match run.reverse.findIdx? (fun c => c = ')') with
  | some k =>
    let j := run.length - 1 - k
    if 1 ≤ j then some (run.take j, run.drop (j + 1)) else none
  | none => none

/-- The capture of `\[?([^\]]+)\]?\)` at the current position: the non-bracket
run either reaches a literal `])`, or it backtracks to end just before its last
`)`. -/
def gbContent (s : List Char) : Option (List Char) :=
  let run := s.takeWhile (fun c => c ≠ ']')
  let after := s.drop run.length
  if (match after with
      | ']' :: ')' :: _ => true
      | _ => false) && !run.isEmpty then
    some run
  else
    match lastParenSplit run with
    | some (content, _) => some content
    | none => none

/-- Matcher for `\.groupby\(\[?([^\]]+)\]?\)` at the current position: the
optional opening bracket is consumed greedily first and released if the rest
of the pattern cannot match. -/
def tryGroupbyCodeAt (l : List Char) : Option (List Char) :=
  if ( ".groupby(".toList).isPrefixOf l then
    let r := List.drop 9 l
    match r with
    | '[' :: r2 =>
      (match gbContent r2 with
       | some content => some content
       | none => gbContent r)
    | _ => gbContent r
  else none

/-- The capture of the first `\.groupby\(...\)` match in the code, searched
with `re.IGNORECASE`; the capture is consumed lower-cased, so the scan over
the lower-cased code is equivalent. -/
def groupbyCodeCapture (code : List Char) : Option (List Char) :=
  searchScan tryGroupbyCodeAt (lowerL code)

/-- Python `str.strip("'\"")`: remove leading and trailing quote characters. -/
def stripQuotes (l : List Char) : List Char :=
  ((l.dropWhile isQuoteChar).reverse.dropWhile isQuoteChar).reverse

/-- The result of one requirement sub-check: the coverage detail value, the
contribution to the running score, and the missing-requirement notes. -/
structure SubCheck where
  coverage : ℚ
  contrib : ℚ
  notes : List String

/-- The filter-conditions sub-check of `analyze_requirement_coverage` (weight
`0.3`): active when more than one filter keyword occurs in the question. -/
def filterCheckRC (ql code : List Char) : SubCheck :=
  if 1 < filterMentionCount ql then
    if filterMentionCount ql ≤ filterOpsCount code then
      { coverage := 1, contrib := 1 * 0.3, notes := [] }
    else
      { coverage := (filterOpsCount code : ℚ) / filterMentionCount ql
        contrib := ((filterOpsCount code : ℚ) / filterMentionCount ql) * 0.3
        notes := [ "Missing " ++ toString (filterMentionCount ql - filterOpsCount code)
            ++ " filter condition(s)"] }
  else { coverage := 1, contrib := 0.3, notes := [] }

/-- The column names inside the code's groupby call: the first capture of the
groupby-call pattern, split at commas, stripped of whitespace and then of
quotes. -/
def gbColsInCode (cap : List Char) : List (List Char) :=
  (splitComma cap).map (fun c => stripQuotes (stripWs c))

/-- How many of the grouping columns named in the question occur
(case-insensitively, as substrings) among the columns of the code's groupby
call. -/
def gbMatched (ql cap : List Char) : Nat :=
  (groupbyColumnsMentioned ql).countP
    (fun col => (gbColsInCode cap).any (fun gc => containsSub (lowerL col) (lowerL gc)))

/-- The groupby-columns coverage ratio `matched / mentioned`. -/
def gbCov (ql cap : List Char) : ℚ :=
  (gbMatched ql cap : ℚ) / (groupbyColumnsMentioned ql).length

/-- The groupby-columns sub-check of `analyze_requirement_coverage` (weight
`0.3`): when the question names grouping columns, the columns inside the
code's groupby call are compared case-insensitively by substring; the source
adds the full weight in both branches of the no-columns-mentioned case. -/
def groupbyCheckRC (ql code : List Char) : SubCheck :=
  if (groupbyColumnsMentioned ql).isEmpty then
    { coverage := 1
      contrib := if containsSub ( ".groupby(".toList) (lowerL code) then 0.3 else 0.3
      notes := [] }
  else
    match groupbyCodeCapture code with
    | some cap =>
      { coverage := gbCov ql cap
        contrib := gbCov ql cap * 0.3
        notes :=
          if gbCov ql cap < 1 then
            [ "Missing "
                ++ toString ((groupbyColumnsMentioned ql).length - gbMatched ql cap)
                ++ " groupby column(s)"]
          else [] }
    | none => { coverage := 0, contrib := 0 * 0.3, notes := [ "Groupby operation missing"] }

/-- The sorting sub-check of `analyze_requirement_coverage` (weight `0.2`). -/
def sortCheckRC (ql code : List Char) : SubCheck :=
  if sortKeywordsL.any (fun kw => containsSub kw ql) then
    if containsSub ( ".sort_values(".toList) (lowerL code)
        || containsSub ( ".sort_index(".toList) (lowerL code)
        || containsSub ( ".nlargest(".toList) (lowerL code)
        || containsSub ( ".nsmallest(".toList) (lowerL code) then
      { coverage := 1, contrib := 1 * 0.2, notes := [] }
    else { coverage := 0, contrib := 0 * 0.2, notes := [ "Sorting operation missing"] }
  else { coverage := 1, contrib := 0.2, notes := [] }

/-- The join-conditions sub-check of `analyze_requirement_coverage` (weight
`0.2`). -/
def joinCheckRC (ql code : List Char) : SubCheck :=
  if joinKeywordsL.any (fun kw => containsSub kw ql) then
    if containsSub ( ".merge(".toList) (lowerL code)
        || containsSub ( ".join(".toList) (lowerL code)
        || containsSub ( ".concat(".toList) (lowerL code) then
      { coverage := 1, contrib := 1 * 0.2, notes := [] }
    else { coverage := 0, contrib := 0 * 0.2, notes := [ "Join/merge operation missing"] }
  else { coverage := 1, contrib := 0.2, notes := [] }

/-- The `details` sub-record of `analyze_requirement_coverage`. -/
structure CoverageDetails where
  filter_conditions_coverage : ℚ
  groupby_columns_coverage : ℚ
  sorting_coverage : ℚ
  join_conditions_coverage : ℚ
  missing_requirements : List String

/-- Result record of `analyze_requirement_coverage`. -/
structure CoverageResult where
  coverage_score : ℚ
  details : CoverageDetails

/-- Embeds `analyze_requirement_coverage`: four weighted sub-checks whose
contributions and missing-requirement notes accumulate in order, and a final
normalization by the accumulated maximum of `1.0`. -/
def analyze_requirement_coverage (question code : List Char) : CoverageResult :=
  let ql := lowerL question
  let f := filterCheckRC ql code
  let g := groupbyCheckRC ql code
  let s := sortCheckRC ql code
  let j := joinCheckRC ql code
  let score := f.contrib + g.contrib + s.contrib + j.contrib
  let maxScore : ℚ := 0.3 + 0.3 + 0.2 + 0.2
  { coverage_score := if 0 < maxScore then score / maxScore else 1
    details :=
      { filter_conditions_coverage := f.coverage
        groupby_columns_coverage := g.coverage
        sorting_coverage := s.coverage
        join_conditions_coverage := j.coverage
        missing_requirements := f.notes ++ g.notes ++ s.notes ++ j.notes } }

/-! ### Recovery Analyzer -/

/-- An execution outcome as delivered by the external sandbox: a type tag
(`number`, `table`, `chart`, `text` or `error`) and its payload, which for an
error outcome is the error message (possibly empty when absent). -/
structure ExecutionResult where
  rtype : String
  data : String

/-- One repair attempt: the repaired code, the resulting error message (empty
when absent) and whether the attempt succeeded, with the dictionary defaults
of the source baked in. -/
structure RecoveryAttempt where
  code : String
  error : String
  success : Bool

/-- Embeds `_classify_error`: keyword classification of an error message into
the fixed taxonomy, with empty input classified as unknown. -/
def classify_error (msg : String) : String :=
  if msg = "" then "unknown"
  else
    let m := lowerL msg.toList
    if containsSub ( "keyerror".toList) m || containsSub ( "column".toList) m then
      "column_error"
    else if containsSub ( "syntax".toList) m || containsSub ( "invalid".toList) m then
      "syntax_error"
    else if containsSub ( "type".toList) m || containsSub ( "dtype".toList) m then
      "type_error"
    else if containsSub ( "index".toList) m || containsSub ( "out of range".toList) m then
      "index_error"
    else if containsSub ( "attribute".toList) m || containsSub ( "has no attribute".toList) m then
      "attribute_error"
    else if containsSub ( "value".toList) m then "value_error"
    else "other_error"

/-- The per-attempt fix quality of `analyze_error_recovery`: full credit for a
successful attempt, half credit when the error class changed, a tenth
otherwise. -/
def attemptFixQuality (originalMsg : String) (a : RecoveryAttempt) : ℚ :=
  if a.success then 1
  else if classify_error originalMsg ≠ classify_error a.error then 0.5
  else 0.1

/-- One entry of the `recovery_details` list. -/
structure RecoveryDetail where
  attempt_number : Nat
  success : Bool
  error : String
  fix_quality : ℚ

/-- Result record of `analyze_error_recovery`. -/
structure RecoveryResult where
  has_error : Bool
  error_message : Option String
  recovery_attempts_count : Nat
  recovery_success : Bool
  recovery_success_rate : ℚ
  error_fix_quality : ℚ
  recovery_details : List RecoveryDetail
  recovery_score : ℚ

/-- Embeds `analyze_error_recovery` (a missing attempt list is the empty
list, as in the source's `None` default). -/
def analyze_error_recovery (er : ExecutionResult) (ras : List RecoveryAttempt) :
    RecoveryResult :=
  if er.rtype = "error" then
    let em := er.data
    let succ := ras.countP (fun a => a.success)
    let rate : ℚ := if ras.isEmpty then 0 else (succ : ℚ) / ras.length
    let fixScores := ras.map (attemptFixQuality em)
    let fixq : ℚ := if ras.isEmpty then 0 else fixScores.sum / fixScores.length
    { has_error := true
      error_message := some em
      recovery_attempts_count := ras.length
      recovery_success := if ras.isEmpty then false else 0 < succ
      recovery_success_rate := rate
      error_fix_quality := fixq
      recovery_details :=
        ras.enum.map
          (fun p =>
            { attempt_number := p.1 + 1
              success := p.2.success
              error := p.2.error
              fix_quality := attemptFixQuality em p.2 })
      recovery_score :=
        if ras.isEmpty then 0
        else rate * 0.5 + fixq * 0.3 + min ((ras.length : ℚ) / 3) 1 * 0.2 }
  else
    { has_error := false
      error_message := none
      recovery_attempts_count := ras.length
      recovery_success := true
      recovery_success_rate := 1
      error_fix_quality := 1
      recovery_details := []
      recovery_score := 1 }

/-! ### Metrics Aggregator -/

/-- The external inputs of one `calculate_evaluation_metrics` call that the
source obtains through side effects: the outcome of `ast.parse` on the
generated code, the dataset's column headers (empty when the CSV is missing or
unreadable), the dataset's file size in megabytes (`none` when unavailable),
and the wall-clock timestamp string. -/
structure PyEnv where
  parse : ParseOutcome
  csvColumns : List (List Char)
  csvSizeMB : Option ℚ
  now : String

/-- The `code_correctness` sub-record of the metrics record. -/
structure CorrectnessMetrics where
  syntax_valid : Bool
  syntax_errors : List SyntaxErrorEntry
  execution_success : Bool
  execution_error : Option String
  correctness_score : ℚ

/-- The `code_quality` sub-record of the metrics record: the quality metrics
dict updated with the safety result and the blended quality score. -/
structure QualityFull where
  base : QualityMetrics
  safety : SafetyResult
  quality_score : ℚ

/-- The `performance` sub-record of the metrics record. -/
structure PerformanceMetrics where
  code_length : Nat
  estimated_complexity : Nat
  line_count : Nat
  execution_time_seconds : Option ℚ
  execution_time_ms : Option ℚ
  time_complexity : TimeComplexityResult
  space_complexity : SpaceComplexityResult
  performance_score : ℚ

/-- The full metrics record produced once per user turn. -/
structure MetricsRecord where
  timestamp : String
  model : String
  question : List Char
  csv_file : String
  code_correctness : CorrectnessMetrics
  code_quality : QualityFull
  performance : PerformanceMetrics
  prompt_understanding : UnderstandingResult
  requirement_coverage : CoverageResult
  error_recovery : RecoveryResult
  overall_score : ℚ

/-- Embeds `calculate_evaluation_metrics`. -/
def calculate_evaluation_metrics (env : PyEnv) (question generated_code : List Char)
    (execution_result : ExecutionResult) (csv_file : String) (model : String)
    (execution_time : Option ℚ) (recovery_attempts : List RecoveryAttempt) :
    MetricsRecord :=
  let syntax_check := check_syntax_correctness env.parse
  let execution_success := execution_result.rtype ≠ "error"
  let correctness_score : ℚ :=
    (if syntax_check.syntax_valid then 0.5 else 0) + (if execution_success then 0.5 else 0)
  let correctness : CorrectnessMetrics :=
    { syntax_valid := syntax_check.syntax_valid
      syntax_errors := syntax_check.syntax_errors
      execution_success := execution_success
      execution_error := if execution_success then none else some execution_result.data
      correctness_score := correctness_score }
  let qm := check_code_quality generated_code
  let sm := check_code_safety generated_code
  let quality_score : ℚ :=
    (if syntax_check.syntax_valid then 0.3 else 0) + sm.safety_score * 0.3
      + ((qm.readability_score : ℚ) / 10) * 0.2
      + (if qm.has_imports && 0 < qm.line_count then 0.2 else 0)
  let quality : QualityFull := { base := qm, safety := sm, quality_score := quality_score }
  let tc := analyze_time_complexity generated_code
  let sc := analyze_space_complexity generated_code env.csvSizeMB
  let code_length := generated_code.length
  let timePart : ℚ :=
    match execution_time with
    | some t =>
      if t < 0.1 then 0.3
      else if t < 1 then 0.25
      else if t < 5 then 0.15
      else 0.05
    | none =>
      if code_length < 500 then 0.2
      else if code_length < 1000 then 0.15
      else 0.1
  let lenPart : ℚ :=
    if code_length < 500 then 0.1 else if code_length < 1000 then 0.05 else 0
  let performance_score : ℚ :=
    timePart + tc.score * 0.3 + sc.score * 0.2 + lenPart
      + (if execution_success then 0.1 else 0)
  let performance : PerformanceMetrics :=
    { code_length := code_length
      estimated_complexity := qm.complexity_score
      line_count := qm.line_count
      execution_time_seconds := execution_time
      execution_time_ms := execution_time.map (fun t => t * 1000)
      time_complexity := tc
      space_complexity := sc
      performance_score := performance_score }
  let understanding := analyze_prompt_understanding question generated_code env.csvColumns
  let coverage := analyze_requirement_coverage question generated_code
  let recovery := analyze_error_recovery execution_result recovery_attempts
  { timestamp := env.now
    model := model
    question := question
    csv_file := csv_file
    code_correctness := correctness
    code_quality := quality
    performance := performance
    prompt_understanding := understanding
    requirement_coverage := coverage
    error_recovery := recovery
    overall_score :=
      correctness.correctness_score * 0.25
        + quality.quality_score * 0.20
        + performance.performance_score * 0.15
        + understanding.understanding_score * 0.15
        + coverage.coverage_score * 0.15
        + recovery.recovery_score * 0.10 }

/-- The per-session summary record, as written to `metrics_summary.json` by
`save_evaluation_metrics` and recomputed identically by
`update_all_metrics_summaries`; the two distribution dictionaries are
represented as association lists. -/
structure SummaryRecord where
  session_id : String
  total_entries : Nat
  last_updated : String
  average_overall_score : ℚ
  average_correctness_score : ℚ
  average_quality_score : ℚ
  average_performance_score : ℚ
  average_understanding_score : ℚ
  average_coverage_score : ℚ
  average_recovery_score : ℚ
  average_execution_time_seconds : Option ℚ
  average_execution_time_ms : Option ℚ
  models_used : List String
  total_questions : Nat
  successful_executions : Nat
  errors_encountered : Nat
  total_recovery_attempts : Nat
  successful_recoveries : Nat
  recovery_success_rate : ℚ
  time_complexity_distribution : List (String × Nat)
  space_complexity_distribution : List (String × Nat)

/-- Average of a list of rationals, zero for the empty list (matching the
guarded divisions of the source). -/
def avgQ (l : List ℚ) : ℚ :=
  if l.isEmpty then 0 else l.sum / l.length

/-- Embeds the pure summary computation shared by `save_evaluation_metrics`
and `update_all_metrics_summaries`: every statistic is recomputed in full from
the metrics list (the wall clock enters as the `now` parameter). -/
def compute_metrics_summary (session_id : String) (now : String)
    (ms : List MetricsRecord) : SummaryRecord :=
  let execTimes := ms.filterMap (fun m => m.performance.execution_time_seconds)
  let avgExec : Option ℚ := if execTimes.isEmpty then none else some (avgQ execTimes)
  let tcs := ms.map (fun m => m.performance.time_complexity.bigO)
  let scs := ms.map (fun m => m.performance.space_complexity.bigO)
  let succRec := ms.countP (fun m => m.error_recovery.recovery_success)
  let errs := ms.countP (fun m => m.error_recovery.has_error)
  { session_id := session_id
    total_entries := ms.length
    last_updated := now
    average_overall_score := avgQ (ms.map (fun m => m.overall_score))
    average_correctness_score := avgQ (ms.map (fun m => m.code_correctness.correctness_score))
    average_quality_score := avgQ (ms.map (fun m => m.code_quality.quality_score))
    average_performance_score := avgQ (ms.map (fun m => m.performance.performance_score))
    average_understanding_score := avgQ (ms.map (fun m => m.prompt_understanding.understanding_score))
    average_coverage_score := avgQ (ms.map (fun m => m.requirement_coverage.coverage_score))
    average_recovery_score := avgQ (ms.map (fun m => m.error_recovery.recovery_score))
    average_execution_time_seconds := avgExec
    average_execution_time_ms :=
      match avgExec with
      | some a => if a = 0 then none else some (a * 1000)
      | none => none
    models_used := (ms.map (fun m => m.model)).dedup
    total_questions := ms.length
    successful_executions := ms.countP (fun m => m.code_correctness.execution_success)
    errors_encountered := errs
    total_recovery_attempts := (ms.map (fun m => m.error_recovery.recovery_attempts_count)).sum
    successful_recoveries := succRec
    recovery_success_rate := if 0 < errs then (succRec : ℚ) / errs else 0
    time_complexity_distribution := tcs.dedup.map (fun c => (c, tcs.count c))
    space_complexity_distribution := scs.dedup.map (fun c => (c, scs.count c)) }

/-! ### Concrete instances used by witnesses and counterexamples -/

/-- A code snippet with two separate `for` loops and no other control
keywords. -/
def c3Code : List Char :=
  ( "for x in a: pass\nfor y in b: pass").toList

/-- A code snippet with two loop indicators (a `for` loop and a `while` loop)
and a merge operation. -/
def c4Code : List Char :=
  ( "for i in x:\n  pass\nwhile y:\n  df = df.merge(df2)").toList

/-- An environment whose dataset has the single column `sales`. -/
def c1Env : PyEnv :=
  { parse := ParseOutcome.ok
    csvColumns := [ "sales".toList]
    csvSizeMB := none
    now := "2025-01-01T00:00:00" }

/-- A question that triggers all six statistical categories, all five
natural-language categories and one column mention at once. -/
def c1Question : List Char :=
  ( "top 3 where chart average sum max min count by sales first 2 rows bottom 4").toList

/-- A code snippet that implements every operation the question above
triggers, so that every category earns its full weight. -/
def c1Code : List Char :=
  ( "df['sales'].nlargest(3)\ndf.head(2)\ndf.nsmallest(4)\nplt.show()\ndf.groupby('sales').mean()\ndf['sales'].sum()\ndf['sales'].max()\ndf['sales'].min()\ndf['sales'].count()").toList

/-- The metrics record of the run with the inputs above and a successful
execution outcome. -/
def c1Record : MetricsRecord :=
  calculate_evaluation_metrics c1Env c1Question c1Code
    { rtype := "table", data := "ok" } "data.csv" "gpt-4o" (some 0.05) []

/-- A bundle of arguments used to witness determinism with two textually
identical calls. -/
def c8Env : PyEnv :=
  { parse := ParseOutcome.ok, csvColumns := [], csvSizeMB := some 1, now := "t0" }

/-- An environment with no dataset information, used by the summary
scenario. -/
def c9Env : PyEnv :=
  { parse := ParseOutcome.ok, csvColumns := [], csvSizeMB := none, now := "t0" }

/-- A session log with one error record that had no repair attempts and two
successful records. -/
def c9Log : List MetricsRecord :=
  [ calculate_evaluation_metrics c9Env ( "hi".toList) ( "x".toList)
      { rtype := "error", data := "KeyError: 'col'" } "f.csv" "m" none [],
    calculate_evaluation_metrics c9Env ( "hi".toList) ( "x".toList)
      { rtype := "table", data := "ok" } "f.csv" "m" none [],
    calculate_evaluation_metrics c9Env ( "yo".toList) ( "y".toList)
      { rtype := "number", data := "5" } "f.csv" "m" none [] ]

/-- An error outcome used by the recovery witnesses. -/
def c5Err : ExecutionResult :=
  { rtype := "error", data := "KeyError: 'col'" }

/-- A single successful repair attempt. -/
def c5Attempt : RecoveryAttempt :=
  { code := "df['col2']", error := "", success := true }

/-! ### Claim theorems -/

/-- C2: for every input tuple, the overall score of the metrics record equals
exactly the fixed convex combination `0.25·correctness + 0.20·quality +
0.15·performance + 0.15·understanding + 0.15·coverage + 0.10·recovery` of the
six sub-scores carried by the same record, and the six weights sum to 1. -/
theorem c2_overall_weighted_sum (env : PyEnv) (question generated_code : List Char)
    (er : ExecutionResult) (csv_file model : String) (t : Option ℚ)
    (ras : List RecoveryAttempt) :
    (calculate_evaluation_metrics env question generated_code er csv_file model t ras).overall_score
        = (calculate_evaluation_metrics env question generated_code er csv_file model t ras).code_correctness.correctness_score * 0.25
          + (calculate_evaluation_metrics env question generated_code er csv_file model t ras).code_quality.quality_score * 0.20
          + (calculate_evaluation_metrics env question generated_code er csv_file model t ras).performance.performance_score * 0.15
          + (calculate_evaluation_metrics env question generated_code er csv_file model t ras).prompt_understanding.understanding_score * 0.15
          + (calculate_evaluation_metrics env question generated_code er csv_file model t ras).requirement_coverage.coverage_score * 0.15
          + (calculate_evaluation_metrics env question generated_code er csv_file model t ras).error_recovery.recovery_score * 0.10
      ∧ (0.25 : ℚ) + 0.20 + 0.15 + 0.15 + 0.15 + 0.10 = 1 := by
  exact ⟨rfl, by norm_num⟩

/-- C8: the metrics computation is deterministic; two calls whose question,
code, execution outcome, dataset reference, model, execution time, recovery
attempts and external environment (parse outcome, column list, file size,
clock) coincide produce records with identical values in all seven score
fields. -/
theorem c8_deterministic_scores (e1 e2 : PyEnv) (q1 q2 c1 c2 : List Char)
    (r1 r2 : ExecutionResult) (f1 f2 m1 m2 : String) (t1 t2 : Option ℚ)
    (a1 a2 : List RecoveryAttempt)
    (he : e1 = e2) (hq : q1 = q2) (hc : c1 = c2) (hr : r1 = r2) (hf : f1 = f2)
    (hm : m1 = m2) (ht : t1 = t2) (ha : a1 = a2) :
    (calculate_evaluation_metrics e1 q1 c1 r1 f1 m1 t1 a1).code_correctness.correctness_score
        = (calculate_evaluation_metrics e2 q2 c2 r2 f2 m2 t2 a2).code_correctness.correctness_score
      ∧ (calculate_evaluation_metrics e1 q1 c1 r1 f1 m1 t1 a1).code_quality.quality_score
        = (calculate_evaluation_metrics e2 q2 c2 r2 f2 m2 t2 a2).code_quality.quality_score
      ∧ (calculate_evaluation_metrics e1 q1 c1 r1 f1 m1 t1 a1).performance.performance_score
        = (calculate_evaluation_metrics e2 q2 c2 r2 f2 m2 t2 a2).performance.performance_score
      ∧ (calculate_evaluation_metrics e1 q1 c1 r1 f1 m1 t1 a1).prompt_understanding.understanding_score
        = (calculate_evaluation_metrics e2 q2 c2 r2 f2 m2 t2 a2).prompt_understanding.understanding_score
      ∧ (calculate_evaluation_metrics e1 q1 c1 r1 f1 m1 t1 a1).requirement_coverage.coverage_score
        = (calculate_evaluation_metrics e2 q2 c2 r2 f2 m2 t2 a2).requirement_coverage.coverage_score
      ∧ (calculate_evaluation_metrics e1 q1 c1 r1 f1 m1 t1 a1).error_recovery.recovery_score
        = (calculate_evaluation_metrics e2 q2 c2 r2 f2 m2 t2 a2).error_recovery.recovery_score
      ∧ (calculate_evaluation_metrics e1 q1 c1 r1 f1 m1 t1 a1).overall_score
        = (calculate_evaluation_metrics e2 q2 c2 r2 f2 m2 t2 a2).overall_score := by
  subst he hq hc hr hf hm ht ha
  exact ⟨rfl, rfl, rfl, rfl, rfl, rfl, rfl⟩

/-- Witness for C8: two calls with the same concrete arguments agree on their
overall score. -/
theorem c8_deterministic_scores_witness :
    (calculate_evaluation_metrics c8Env ( "hi".toList) ( "x".toList)
        { rtype := "table", data := "ok" } "f.csv" "m" (some 1) []).overall_score
      = (calculate_evaluation_metrics c8Env ( "hi".toList) ( "x".toList)
        { rtype := "table", data := "ok" } "f.csv" "m" (some 1) []).overall_score :=
  (c8_deterministic_scores c8Env c8Env ( "hi".toList) ( "hi".toList)
    ( "x".toList) ( "x".toList) { rtype := "table", data := "ok" }
    { rtype := "table", data := "ok" } "f.csv" "f.csv" "m" "m" (some 1) (some 1)
    [] [] rfl rfl rfl rfl rfl rfl rfl rfl).2.2.2.2.2.2

/-- C3 counterexample: on code consisting of two separate `for` loops the
quality check reports a complexity score of 1, not the occurrence total 2
demanded by the claim, because the source counts each keyword of the
vocabulary at most once. -/
theorem c3_counterexample :
    (check_code_quality c3Code).complexity_score = 1
      ∧ specTotalKeywordOccurrences c3Code = 2
      ∧ (check_code_quality c3Code).complexity_score ≠ specTotalKeywordOccurrences c3Code :=
  ⟨by decide, by decide, by decide⟩

/-- C3 amended: the complexity score equals the number of distinct control
keywords of the fixed vocabulary that occur word-bounded in the code (each
keyword counted at most once, so it never exceeds 8). -/
theorem c3_distinct_keyword_count (code : List Char) :
    (check_code_quality code).complexity_score
        = (complexityKeywords.filter (fun kw => hasWordKw kw code)).length
      ∧ (check_code_quality code).complexity_score ≤ 8 := by
  constructor
  · simp [check_code_quality, List.countP_eq_length_filter]
  · exact le_trans (List.countP_le_length _) (by decide)

/-- C1 (refuting evaluation): at a concrete input the understanding score
produced by `calculate_evaluation_metrics` is `1.3`, outside `[0, 1]`: the
statistical table can contribute up to `0.6` while the normalizing denominator
only accounts for `0.3` of it. -/
theorem c1_understanding_exceeds_one :
    c1Record.prompt_understanding.understanding_score = 13 / 10
      ∧ 1 < c1Record.prompt_understanding.understanding_score := by
  have h : c1Record.prompt_understanding.understanding_score = 13 / 10 := by
    with_unfolding_all decide
  exact ⟨h, by rw [h]; norm_num⟩

/-- One maximum step never decreases the rank. -/
theorem tcStep_rank_le (acc : TC) (e : TC × Bool) : acc.rank ≤ (tcStep acc e).rank := by
  unfold tcStep
  split
  · rename_i h
    simp only [Bool.and_eq_true, decide_eq_true_eq] at h
    exact le_of_lt h.2
  · exact le_rfl

/-- Folding maximum steps never decreases the rank of the accumulator. -/
theorem foldl_tcStep_rank_le (tbl : List (TC × Bool)) (init : TC) :
    init.rank ≤ (tbl.foldl tcStep init).rank := by
  induction tbl generalizing init with
  | nil => exact le_rfl
  | cons e es ih => exact le_trans (tcStep_rank_le init e) (ih (tcStep init e))

/-- A table entry whose test fired bounds the folded maximum from below. -/
theorem foldl_tcStep_rank_ge (tbl : List (TC × Bool)) (init : TC) (t : TC)
    (h : (t, true) ∈ tbl) : t.rank ≤ (tbl.foldl tcStep init).rank := by
  induction tbl generalizing init with
  | nil => cases h
  | cons e es ih =>
    rcases List.mem_cons.mp h with he | he
    · subst he
      refine le_trans ?_ (foldl_tcStep_rank_le es (tcStep init (t, true)))
      unfold tcStep
      split
      · exact le_rfl
      · rename_i hc
        simp only [Bool.and_eq_true, decide_eq_true_eq, true_and, not_lt] at hc
        exact hc
    · rw [List.foldl_cons]
      exact ih (tcStep init e) he

/-- When every table entry has rank at most `b` and the start does too, so
does the folded maximum. -/
theorem foldl_tcStep_rank_bound (tbl : List (TC × Bool)) (init : TC) (b : Nat)
    (hi : init.rank ≤ b) (ht : ∀ e ∈ tbl, (e : TC × Bool).1.rank ≤ b) :
    (tbl.foldl tcStep init).rank ≤ b := by
  induction tbl generalizing init with
  | nil => exact hi
  | cons e es ih =>
    refine ih (tcStep init e) ?_ (fun x hx => ht x (List.mem_cons_of_mem e hx))
    unfold tcStep
    split
    · exact ht e (List.mem_cons_self e es)
    · exact hi

/-- A merge call forces the base data-operation complexity to the top of the
pandas ladder, the quadratic class. -/
theorem baseComplexity_of_merge (code : List Char)
    (h : containsSub ( ".merge(".toList) (lowerL code) = true) :
    baseComplexity code = TC.on2 := by
  have hmem : ((TC.on2, true) : TC × Bool) ∈ pandasOpsTable (lowerL code) := by
    rw [← h]
    simp [pandasOpsTable]
  have hge := foldl_tcStep_rank_ge (pandasOpsTable (lowerL code)) TC.o1 TC.on2 hmem
  have hle : ((pandasOpsTable (lowerL code)).foldl tcStep TC.o1).rank ≤ 3 := by
    refine foldl_tcStep_rank_bound _ _ 3 (by decide) ?_
    intro e he
    simp only [pandasOpsTable, List.mem_cons, List.not_mem_nil, or_false] at he
    rcases he with rfl | rfl | rfl | rfl | rfl | rfl | rfl | rfl | rfl | rfl | rfl | rfl
      | rfl | rfl | rfl | rfl | rfl | rfl | rfl | rfl <;> simp [TC.rank]
  have hrank : ((pandasOpsTable (lowerL code)).foldl tcStep TC.o1).rank = 3 :=
    le_antisymm hle hge
  unfold baseComplexity
  cases hb : (pandasOpsTable (lowerL code)).foldl tcStep TC.o1 <;>
    rw [hb] at hrank <;> first | rfl | (exfalso; simp [TC.rank] at hrank)

/-- Adjustment with at least two loops sends every base strictly above linear
to the cubic class. -/
theorem adjustLoops_ge_two (m : TC) (n : Nat) (h2 : 2 ≤ n) (hm : 1 < m.rank) :
    adjustLoops m n = TC.on3 := by
  unfold adjustLoops
  rw [if_pos (by omega), if_neg (by omega)]
  cases m <;> first | decide | exact absurd hm (by decide)

/-- C4: loop detections escalate the base complexity from the data-operation
ladder: one loop bumps `O(1)` to `O(n)` and `O(n)` to `O(n²)`; two or more
loops bump a base of `O(1)` or `O(n)` to `O(n²)` and any base strictly above
`O(n)` to `O(n³)`; in particular any code with two loop indicators and a merge
operation is reported as `O(n³)`. -/
theorem c4_loop_escalation (code : List Char) :
    (nestedLoopsOf code = 1 →
        (baseComplexity code = TC.o1 → (analyze_time_complexity code).bigO = "O(n)")
        ∧ (baseComplexity code = TC.on → (analyze_time_complexity code).bigO = "O(n²)"))
    ∧ (2 ≤ nestedLoopsOf code →
        ((baseComplexity code = TC.o1 ∨ baseComplexity code = TC.on) →
          (analyze_time_complexity code).bigO = "O(n²)")
        ∧ (1 < (baseComplexity code).rank →
          (analyze_time_complexity code).bigO = "O(n³)"))
    ∧ (2 ≤ nestedLoopsOf code →
        containsSub ( ".merge(".toList) (lowerL code) = true →
        (analyze_time_complexity code).bigO = "O(n³)") := by
  have hbig : (analyze_time_complexity code).bigO
      = (adjustLoops (baseComplexity code) (nestedLoopsOf code)).label := rfl
  refine ⟨fun h1 => ⟨fun hb => ?_, fun hb => ?_⟩,
          fun h2 => ⟨fun hb => ?_, fun hb => ?_⟩, fun h2 hm => ?_⟩
  · rw [hbig, hb, h1]; rfl
  · rw [hbig, hb, h1]; rfl
  · rcases hb with hb | hb <;>
      (rw [hbig, hb]; unfold adjustLoops;
       rw [if_pos (by omega), if_neg (by omega)]; rfl)
  · rw [hbig, adjustLoops_ge_two _ _ h2 hb]; rfl
  · rw [hbig, baseComplexity_of_merge code hm, adjustLoops_ge_two _ _ h2 (by decide)]
    rfl

/-- Witness for C4: the concrete two-loop-and-merge snippet is classified as
cubic. -/
theorem c4_loop_escalation_witness :
    2 ≤ nestedLoopsOf c4Code
      ∧ containsSub ( ".merge(".toList) (lowerL c4Code) = true
      ∧ (analyze_time_complexity c4Code).bigO = "O(n³)" :=
  ⟨by decide, by decide, (c4_loop_escalation c4Code).2.2 (by decide) (by decide)⟩

/-- C5: on an error outcome, the recovery score is the stated blend
`0.5·successRate + 0.3·fixQuality + 0.2·min(n/3, 1)` of the record's own rate
and fix-quality fields whenever at least one repair attempt exists, it is
exactly `0` with no attempts, and a single successful attempt yields a success
rate of `1` and a recovery score of `13/15 ≈ 0.867`. -/
theorem c5_recovery_formula (er : ExecutionResult) (ras : List RecoveryAttempt)
    (h : er.rtype = "error") :
    (ras ≠ [] →
        (analyze_error_recovery er ras).recovery_score
          = (analyze_error_recovery er ras).recovery_success_rate * 0.5
            + (analyze_error_recovery er ras).error_fix_quality * 0.3
            + min ((ras.length : ℚ) / 3) 1 * 0.2)
    ∧ (ras = [] → (analyze_error_recovery er ras).recovery_score = 0)
    ∧ (∀ a : RecoveryAttempt, ras = [a] → a.success = true →
        (analyze_error_recovery er ras).recovery_success_rate = 1
          ∧ (analyze_error_recovery er ras).recovery_score = 13 / 15) := by
  refine ⟨fun hne => ?_, fun hnil => ?_, fun a hra hs => ?_⟩
  · cases ras with
    | nil => exact absurd rfl hne
    | cons a tl => simp [analyze_error_recovery, h]
  · subst hnil
    simp [analyze_error_recovery, h]
  · subst hra
    have hrate : (analyze_error_recovery er [a]).recovery_success_rate = 1 := by
      simp [analyze_error_recovery, h, hs]
    refine ⟨hrate, ?_⟩
    have hfix : (analyze_error_recovery er [a]).error_fix_quality = 1 := by
      simp [analyze_error_recovery, h, attemptFixQuality, hs]
    have hscore : (analyze_error_recovery er [a]).recovery_score
        = (analyze_error_recovery er [a]).recovery_success_rate * 0.5
          + (analyze_error_recovery er [a]).error_fix_quality * 0.3
          + min ((1 : ℚ) / 3) 1 * 0.2 := by
      simp [analyze_error_recovery, h]
    rw [hscore, hrate, hfix]
    rw [min_eq_left (by norm_num)]
    norm_num

/-- Witness for C5: on a concrete error outcome, zero attempts give score `0`
and one successful attempt gives rate `1` and score `13/15`. -/
theorem c5_recovery_formula_witness :
    (analyze_error_recovery c5Err []).recovery_score = 0
      ∧ (analyze_error_recovery c5Err [c5Attempt]).recovery_success_rate = 1
      ∧ (analyze_error_recovery c5Err [c5Attempt]).recovery_score = 13 / 15 :=
  ⟨(c5_recovery_formula c5Err [] rfl).2.1 rfl,
   ((c5_recovery_formula c5Err [c5Attempt] rfl).2.2 c5Attempt rfl rfl).1,
   ((c5_recovery_formula c5Err [c5Attempt] rfl).2.2 c5Attempt rfl rfl).2⟩

/-- C7: whenever parsing the generated code fails, the syntax check reports
invalidity with a nonempty error list (the function is total: every exception
branch returns a record), and the correctness score of the resulting metrics
record is at most `0.5`. -/
theorem c7_syntax_invalid_low_correctness (env : PyEnv) (question generated_code : List Char)
    (er : ExecutionResult) (csv_file model : String) (t : Option ℚ)
    (ras : List RecoveryAttempt) (h : env.parse.isFailure = true) :
    (calculate_evaluation_metrics env question generated_code er csv_file model t ras).code_correctness.syntax_valid = false
      ∧ (calculate_evaluation_metrics env question generated_code er csv_file model t ras).code_correctness.syntax_errors ≠ []
      ∧ (calculate_evaluation_metrics env question generated_code er csv_file model t ras).code_correctness.correctness_score ≤ 0.5 := by
  have hv : (calculate_evaluation_metrics env question generated_code er csv_file model t ras).code_correctness.syntax_valid
      = (check_syntax_correctness env.parse).syntax_valid := rfl
  have he : (calculate_evaluation_metrics env question generated_code er csv_file model t ras).code_correctness.syntax_errors
      = (check_syntax_correctness env.parse).syntax_errors := rfl
  have hs : (calculate_evaluation_metrics env question generated_code er csv_file model t ras).code_correctness.correctness_score
      = (if (check_syntax_correctness env.parse).syntax_valid then (0.5 : ℚ) else 0)
        + (if er.rtype ≠ "error" then (0.5 : ℚ) else 0) := rfl
  cases hp : env.parse with
  | ok => rw [hp] at h; exact absurd h (by decide)
  | syntaxError ln msg txt =>
    rw [hp] at hv he hs
    refine ⟨hv, by rw [he]; exact by simp [check_syntax_correctness], ?_⟩
    rw [hs]
    simp only [check_syntax_correctness, if_neg Bool.false_ne_true, zero_add]
    split <;> norm_num
  | otherError msg =>
    rw [hp] at hv he hs
    refine ⟨hv, by rw [he]; exact by simp [check_syntax_correctness], ?_⟩
    rw [hs]
    simp only [check_syntax_correctness, if_neg Bool.false_ne_true, zero_add]
    split <;> norm_num

/-- Witness for C7: a concrete failed parse yields an invalid, nonempty-error,
half-score-capped record. -/
theorem c7_syntax_invalid_low_correctness_witness :
    (calculate_evaluation_metrics
        { parse := ParseOutcome.syntaxError (some 1) "invalid syntax" (some "x ="),
          csvColumns := [], csvSizeMB := none, now := "t" }
        ( "hi".toList) ( "x =".toList) { rtype := "table", data := "ok" }
        "f.csv" "m" none []).code_correctness.syntax_valid = false
      ∧ (calculate_evaluation_metrics
        { parse := ParseOutcome.syntaxError (some 1) "invalid syntax" (some "x ="),
          csvColumns := [], csvSizeMB := none, now := "t" }
        ( "hi".toList) ( "x =".toList) { rtype := "table", data := "ok" }
        "f.csv" "m" none []).code_correctness.correctness_score ≤ 0.5 :=
  ⟨(c7_syntax_invalid_low_correctness
      { parse := ParseOutcome.syntaxError (some 1) "invalid syntax" (some "x ="),
        csvColumns := [], csvSizeMB := none, now := "t" }
      ( "hi".toList) ( "x =".toList) { rtype := "table", data := "ok" }
      "f.csv" "m" none [] (by decide)).1,
   (c7_syntax_invalid_low_correctness
      { parse := ParseOutcome.syntaxError (some 1) "invalid syntax" (some "x ="),
        csvColumns := [], csvSizeMB := none, now := "t" }
      ( "hi".toList) ( "x =".toList) { rtype := "table", data := "ok" }
      "f.csv" "m" none [] (by decide)).2.2⟩

/-- C9: the session summary counts as `successful_recoveries` every record
whose recovery-success flag is set, the recovery analyzer sets that flag for
every non-error outcome, and consequently a session log with one
error-without-attempts record and two non-error records has
`recovery_success_rate = 2 > 1`. -/
theorem c9_recovery_rate_exceeds_one :
    (∀ (sid now : String) (ms : List MetricsRecord),
        (compute_metrics_summary sid now ms).successful_recoveries
          = ms.countP (fun m => m.error_recovery.recovery_success))
    ∧ (∀ (er : ExecutionResult) (ras : List RecoveryAttempt), er.rtype ≠ "error" →
        (analyze_error_recovery er ras).recovery_success = true)
    ∧ (compute_metrics_summary "s" "t1" c9Log).recovery_success_rate = 2
    ∧ 1 < (compute_metrics_summary "s" "t1" c9Log).recovery_success_rate := by
  have hrate : (compute_metrics_summary "s" "t1" c9Log).recovery_success_rate = 2 := by
    with_unfolding_all decide
  refine ⟨fun sid now ms => rfl, fun er ras hne => ?_, hrate, by rw [hrate]; norm_num⟩
  simp [analyze_error_recovery, hne]

/-- Witness for C9: a concrete non-error outcome is marked as a recovery
success by the analyzer. -/
theorem c9_recovery_rate_exceeds_one_witness :
    (analyze_error_recovery { rtype := "table", data := "ok" } []).recovery_success = true :=
  c9_recovery_rate_exceeds_one.2.1 { rtype := "table", data := "ok" } [] (by decide)

/-- A pattern that is a prefix of the text occurs in it. -/
theorem containsSub_of_isPrefixOf {pat l : List Char} (h : pat.isPrefixOf l = true) :
    containsSub pat l = true := by
  cases l with
  | nil => simpa [containsSub] using h
  | cons c rest => simp [containsSub, h]

/-- Occurrence in a suffix implies occurrence in the whole text. -/
theorem containsSub_suffix {pat t l : List Char} (hsuf : t <:+ l)
    (h : containsSub pat t = true) : containsSub pat l = true := by
  obtain ⟨s, rfl⟩ := hsuf
  induction s with
  | nil => simpa using h
  | cons a s ih => simp only [List.cons_append, containsSub, Bool.or_eq_true]; exact Or.inr ih

/-- A nonempty capture collection means the matcher succeeded at some suffix
of the text. -/
theorem collectScan_ne_nil (tryM : List Char → Option (List Char × List Char)) :
    ∀ (fuel : Nat) (l : List Char), collectScan tryM fuel l ≠ [] →
      ∃ t, t <:+ l ∧ (tryM t).isSome = true := by
  intro fuel
  induction fuel with
  | zero => intro l h; exact absurd rfl h
  | succ n ih =>
    intro l h
    cases l with
    | nil => exact absurd rfl h
    | cons c rest =>
      cases htm : tryM (c :: rest) with
      | some x => exact ⟨c :: rest, List.suffix_refl _, by rw [htm]; rfl⟩
      | none =>
        have h' : collectScan tryM n rest ≠ [] := by
          simpa [collectScan, htm] using h
        obtain ⟨t, hsuf, hm⟩ := ih rest h'
        exact ⟨t, hsuf.trans (List.suffix_cons c rest), hm⟩

/-- A successful `group by`-pattern match forces the word `by` to occur in the
text. -/
theorem tryGroupQ1_contains_by {l : List Char} {x : List Char × List Char}
    (h : tryGroupQ1 l = some x) : containsSub ( "by".toList) l = true := by
  unfold tryGroupQ1 at h
  split at h
  · rename_i hg
    split at h
    · rename_i c r heq
      split at h
      · split at h
        · rename_i hby
          refine containsSub_suffix ?_ (containsSub_of_isPrefixOf hby)
          refine (List.dropWhile_suffix isSpaceChar).trans ?_
          refine List.IsSuffix.trans ?_ (List.drop_suffix 5 l)
          rw [heq]
          exact List.suffix_cons c r
        · exact absurd h (by simp)
      · exact absurd h (by simp)
    · exact absurd h (by simp)
  · exact absurd h (by simp)

/-- A successful `by`-pattern match forces the word `by` to occur in the
text. -/
theorem tryGroupQ2_contains_by {l : List Char} {x : List Char × List Char}
    (h : tryGroupQ2 l = some x) : containsSub ( "by".toList) l = true := by
  unfold tryGroupQ2 at h
  split at h
  · rename_i hby
    exact containsSub_of_isPrefixOf hby
  · exact absurd h (by simp)

/-- When the question does not contain the word `by`, the groupby-column
extraction finds nothing. -/
theorem groupbyColumnsMentioned_eq_nil {ql : List Char}
    (hby : containsSub ( "by".toList) ql = false) :
    groupbyColumnsMentioned ql = [] := by
  have h1 : collectScan tryGroupQ1 (ql.length + 1) ql = [] := by
    by_contra hne
    obtain ⟨t, hsuf, hm⟩ := collectScan_ne_nil tryGroupQ1 (ql.length + 1) ql hne
    cases htm : tryGroupQ1 t with
    | none => rw [htm] at hm; exact absurd hm (by simp)
    | some x =>
      have := containsSub_suffix hsuf (tryGroupQ1_contains_by htm)
      rw [hby] at this
      exact absurd this (by simp)
  have h2 : collectScan tryGroupQ2 (ql.length + 1) ql = [] := by
    by_contra hne
    obtain ⟨t, hsuf, hm⟩ := collectScan_ne_nil tryGroupQ2 (ql.length + 1) ql hne
    cases htm : tryGroupQ2 t with
    | none => rw [htm] at hm; exact absurd hm (by simp)
    | some x =>
      have := containsSub_suffix hsuf (tryGroupQ2_contains_by htm)
      rw [hby] at this
      exact absurd this (by simp)
  unfold groupbyColumnsMentioned
  rw [h1, h2]
  rfl

/-- C6: a question mentioning none of the filter, groupby, sort or join
keywords, paired with code containing none of the corresponding constructs,
earns the full default coverage score of exactly 1: every sub-check falls back
to full credit when its requirement is not mentioned. -/
theorem c6_coverage_default_full (question code : List Char)
    (hfq : ∀ kw ∈ filterKeywordsL, containsSub kw (lowerL question) = false)
    (hby : containsSub ( "by".toList) (lowerL question) = false)
    (hsq : ∀ kw ∈ sortKeywordsL, containsSub kw (lowerL question) = false)
    (hjq : ∀ kw ∈ joinKeywordsL, containsSub kw (lowerL question) = false)
    (hfc : filterOpsCount code = 0)
    (hgc : containsSub ( ".groupby(".toList) (lowerL code) = false)
    (hsc : containsSub ( ".sort_values(".toList) (lowerL code) = false
      ∧ containsSub ( ".sort_index(".toList) (lowerL code) = false
      ∧ containsSub ( ".nlargest(".toList) (lowerL code) = false
      ∧ containsSub ( ".nsmallest(".toList) (lowerL code) = false)
    (hjc : containsSub ( ".merge(".toList) (lowerL code) = false
      ∧ containsSub ( ".join(".toList) (lowerL code) = false
      ∧ containsSub ( ".concat(".toList) (lowerL code) = false) :
    (analyze_requirement_coverage question code).coverage_score = 1 := by
  have hfc0 : filterMentionCount (lowerL question) = 0 := by
    refine List.countP_eq_zero.mpr ?_
    intro kw hkw
    simp [hfq kw hkw]
  have hf : (filterCheckRC (lowerL question) code).contrib = 0.3 := by
    simp [filterCheckRC, hfc0]
  have hg : (groupbyCheckRC (lowerL question) code).contrib = 0.3 := by
    simp [groupbyCheckRC, groupbyColumnsMentioned_eq_nil hby, hgc]
  have hs : (sortCheckRC (lowerL question) code).contrib = 0.2 := by
    have hany : sortKeywordsL.any (fun kw => containsSub kw (lowerL question)) = false := by
      simp only [List.any_eq_false]
      intro kw hkw
      simp [hsq kw hkw]
    simp [sortCheckRC, hany]
  have hj : (joinCheckRC (lowerL question) code).contrib = 0.2 := by
    have hany : joinKeywordsL.any (fun kw => containsSub kw (lowerL question)) = false := by
      simp only [List.any_eq_false]
      intro kw hkw
      simp [hjq kw hkw]
    simp [joinCheckRC, hany]
  show (if (0 : ℚ) < 0.3 + 0.3 + 0.2 + 0.2 then
      ((filterCheckRC (lowerL question) code).contrib
        + (groupbyCheckRC (lowerL question) code).contrib
        + (sortCheckRC (lowerL question) code).contrib
        + (joinCheckRC (lowerL question) code).contrib) / (0.3 + 0.3 + 0.2 + 0.2)
    else 1) = 1
  rw [hf, hg, hs, hj, if_pos (by norm_num)]
  norm_num

/-- Witness for C6: a concrete keyword-free question and construct-free code
get coverage exactly 1. -/
theorem c6_coverage_default_full_witness :
    (analyze_requirement_coverage ( "what is the mean of x".toList)
      ( "df.mean()".toList)).coverage_score = 1 :=
  c6_coverage_default_full ( "what is the mean of x".toList) ( "df.mean()".toList)
    (by decide) (by decide) (by decide) (by decide) (by decide) (by decide)
    ⟨by decide, by decide, by decide, by decide⟩ ⟨by decide, by decide, by decide⟩

/-- The filter sub-check contributes between 0 and its weight `0.3`, and its
note list is empty exactly when it earns the full weight. -/
theorem filterCheckRC_spec (ql code : List Char) :
    0 ≤ (filterCheckRC ql code).contrib ∧ (filterCheckRC ql code).contrib ≤ 0.3
      ∧ ((filterCheckRC ql code).notes = [] ↔ (filterCheckRC ql code).contrib = 0.3) := by
  unfold filterCheckRC
  split_ifs with h1 h2
  · dsimp only
    norm_num
  · dsimp only
    have hfc : (0 : ℚ) < filterMentionCount ql := by exact_mod_cast Nat.lt_of_lt_of_le one_pos (le_of_lt h1)
    have hlt : ((filterOpsCount code : ℚ) / filterMentionCount ql) < 1 := by
      rw [div_lt_one hfc]
      exact_mod_cast not_le.mp h2
    have hge : (0 : ℚ) ≤ (filterOpsCount code : ℚ) / filterMentionCount ql := by positivity
    refine ⟨by nlinarith, by nlinarith, ?_, ?_⟩
    · intro hx
      exact absurd hx (by simp)
    · intro hx
      nlinarith
  · dsimp only
    norm_num

/-- The groupby sub-check contributes between 0 and its weight `0.3`, and its
note list is empty exactly when it earns the full weight. -/
theorem groupbyCheckRC_spec (ql code : List Char) :
    0 ≤ (groupbyCheckRC ql code).contrib ∧ (groupbyCheckRC ql code).contrib ≤ 0.3
      ∧ ((groupbyCheckRC ql code).notes = [] ↔ (groupbyCheckRC ql code).contrib = 0.3) := by
  by_cases hemp : (groupbyColumnsMentioned ql).isEmpty
  · unfold groupbyCheckRC
    rw [if_pos hemp, ite_self]
    dsimp only
    norm_num
  · have hlen : 0 < (groupbyColumnsMentioned ql).length := by
      cases hql : groupbyColumnsMentioned ql with
      | nil => rw [hql] at hemp; exact absurd rfl hemp
      | cons a tl => simp
    cases hcap : groupbyCodeCapture code with
    | none =>
      unfold groupbyCheckRC
      rw [if_neg hemp, hcap]
      dsimp only
      norm_num
    | some cap =>
      have h0 : 0 ≤ gbCov ql cap := by
        unfold gbCov
        positivity
      have h1 : gbCov ql cap ≤ 1 := by
        unfold gbCov
        rw [div_le_one (by exact_mod_cast hlen)]
        exact_mod_cast List.countP_le_length _
      unfold groupbyCheckRC
      rw [if_neg hemp, hcap]
      dsimp only
      by_cases hc : gbCov ql cap < 1
      · rw [if_pos hc]
        refine ⟨by nlinarith, by nlinarith, ?_, ?_⟩
        · intro hx
          exact absurd hx (by simp)
        · intro hx
          nlinarith
      · have hone : gbCov ql cap = 1 := le_antisymm h1 (not_lt.mp hc)
        rw [if_neg hc, hone]
        norm_num

/-- The sorting sub-check contributes between 0 and its weight `0.2`, and its
note list is empty exactly when it earns the full weight. -/
theorem sortCheckRC_spec (ql code : List Char) :
    0 ≤ (sortCheckRC ql code).contrib ∧ (sortCheckRC ql code).contrib ≤ 0.2
      ∧ ((sortCheckRC ql code).notes = [] ↔ (sortCheckRC ql code).contrib = 0.2) := by
  unfold sortCheckRC
  split_ifs <;> dsimp only <;> norm_num

/-- The join sub-check contributes between 0 and its weight `0.2`, and its
note list is empty exactly when it earns the full weight. -/
theorem joinCheckRC_spec (ql code : List Char) :
    0 ≤ (joinCheckRC ql code).contrib ∧ (joinCheckRC ql code).contrib ≤ 0.2
      ∧ ((joinCheckRC ql code).notes = [] ↔ (joinCheckRC ql code).contrib = 0.2) := by
  unfold joinCheckRC
  split_ifs <;> dsimp only <;> norm_num

/-- C10: the missing-requirements list of the coverage analysis is empty
exactly when the coverage score equals 1; a note is recorded precisely when
some sub-check earns less than its full credit. -/
theorem c10_missing_iff_not_full (question code : List Char) :
    (analyze_requirement_coverage question code).details.missing_requirements = []
      ↔ (analyze_requirement_coverage question code).coverage_score = 1 := by
  obtain ⟨hf0, hf3, hfiff⟩ := filterCheckRC_spec (lowerL question) code
  obtain ⟨hg0, hg3, hgiff⟩ := groupbyCheckRC_spec (lowerL question) code
  obtain ⟨hs0, hs2, hsiff⟩ := sortCheckRC_spec (lowerL question) code
  obtain ⟨hj0, hj2, hjiff⟩ := joinCheckRC_spec (lowerL question) code
  have hmr : (analyze_requirement_coverage question code).details.missing_requirements
      = (filterCheckRC (lowerL question) code).notes
        ++ (groupbyCheckRC (lowerL question) code).notes
        ++ (sortCheckRC (lowerL question) code).notes
        ++ (joinCheckRC (lowerL question) code).notes := rfl
  have hcs : (analyze_requirement_coverage question code).coverage_score
      = (filterCheckRC (lowerL question) code).contrib
        + (groupbyCheckRC (lowerL question) code).contrib
        + (sortCheckRC (lowerL question) code).contrib
        + (joinCheckRC (lowerL question) code).contrib := by
    show (if (0 : ℚ) < 0.3 + 0.3 + 0.2 + 0.2 then
        ((filterCheckRC (lowerL question) code).contrib
          + (groupbyCheckRC (lowerL question) code).contrib
          + (sortCheckRC (lowerL question) code).contrib
          + (joinCheckRC (lowerL question) code).contrib) / (0.3 + 0.3 + 0.2 + 0.2)
      else 1) = _
    rw [if_pos (by norm_num)]
    norm_num
  rw [hmr, hcs]
  constructor
  · intro h
    simp only [List.append_eq_nil] at h
    obtain ⟨⟨⟨h1, h2⟩, h3⟩, h4⟩ := h
    rw [hfiff.mp h1, hgiff.mp h2, hsiff.mp h3, hjiff.mp h4]
    norm_num
  · intro h
    have e1 : (filterCheckRC (lowerL question) code).contrib = 0.3 := by linarith
    have e2 : (groupbyCheckRC (lowerL question) code).contrib = 0.3 := by linarith
    have e3 : (sortCheckRC (lowerL question) code).contrib = 0.2 := by linarith
    have e4 : (joinCheckRC (lowerL question) code).contrib = 0.2 := by linarith
    rw [hfiff.mpr e1, hgiff.mpr e2, hsiff.mpr e3, hjiff.mpr e4]
    rfl

end ISE547
